import Mathlib

/-!
Shallow embedding of the pricing / discount / commission engine of the
little-backend repository (appointmentController.ts, financialController.ts).

Monetary values are modelled as rationals.  JavaScript truthiness on nullable
numbers (`x || y`), `Math.round(x * 100) / 100`, and Prisma query semantics
(`findUnique`/`findFirst` as `List.find?`, `findMany { id: { in: ids } }` as a
filter of the stored rows) are modelled explicitly.
-/

deriving instance DecidableEq for Except

namespace LittleBackend

/-- User roles. -/
inductive Role
  | Boss
  | Staff
  | Client
deriving DecidableEq, Repr

/-- A system user (staff member / boss).  `commissionRate` is the nullable
percentage column used by the financial reports. -/
structure User where
  id : Nat
  role : Role
  isActive : Bool
  commissionRate : Option ℚ
deriving DecidableEq, Repr

/-- A service package: only the fields the pricing engine reads. -/
structure Package where
  id : Nat
  price : ℚ
deriving DecidableEq, Repr

/-- Discount code type discriminator. -/
inductive DiscountType
  | percentage
  | fixed_amount
deriving DecidableEq, Repr

/-- A discount code row.  For `percentage` codes `discountPercent` is set and
`discountAmount` is null; for `fixed_amount` codes it is the other way round
(see `createDiscountCode` in financialController.ts). -/
structure DiscountCode where
  id : Nat
  code : String
  discountType : DiscountType
  discountPercent : Option ℚ
  discountAmount : Option ℚ
  applicablePackages : List Nat
  isActive : Bool
deriving DecidableEq, Repr

/-- Appointment status strings. -/
inductive Status
  | pending
  | confirmed
  | completed
  | cancelled
deriving DecidableEq, Repr

/-- An appointment row (the columns the core logic reads and writes). -/
structure Appointment where
  id : Nat
  clientId : Nat
  packageId : Nat
  barberId : Option Nat
  additionalPackages : Option (List Nat)
  status : Status
  originalPrice : Option ℚ
  discountCodeId : Option Nat
  discountAmount : Option ℚ
  finalPrice : Option ℚ
deriving DecidableEq, Repr

/-- A discount-code usage ledger row; the storage layer has a uniqueness
constraint on (discountCodeId, clientId). -/
structure DiscountCodeUsage where
  discountCodeId : Nat
  clientId : Nat
  appointmentId : Nat
deriving DecidableEq, Repr

/-- An AppointmentDiscount row (multi-discount variant). -/
structure AppointmentDiscount where
  appointmentId : Nat
  discountCodeId : Nat
  appliedToPackages : List Nat
  discountAmount : ℚ
deriving DecidableEq, Repr

/-- The relational store. -/
structure DB where
  clients : List Nat
  users : List User
  packages : List Package
  discountCodes : List DiscountCode
  appointments : List Appointment
  usages : List DiscountCodeUsage
  appointmentDiscounts : List AppointmentDiscount
deriving DecidableEq, Repr

/-- Well-formedness of the package table: primary keys are unique. -/
def DB.WFpackages (db : DB) : Prop := (db.packages.map (·.id)).Nodup

instance (db : DB) : Decidable db.WFpackages := by
  unfold DB.WFpackages; infer_instance

/-- JavaScript numeric coercion of a nullable number: `null` coerces to 0. -/
def jsNum (o : Option ℚ) : ℚ := o.getD 0

/-- JavaScript truthiness of a nullable number: `null` and `0` are falsy. -/
def jsTruthyQ (o : Option ℚ) : Bool :=
  match o with
  | none => false
  | some x => x != 0

/-- JavaScript truthiness of a nullable integer id. -/
def jsTruthyNat (o : Option Nat) : Bool :=
  match o with
  | none => false
  | some n => n != 0

/-- JavaScript truthiness of a nullable string: `null` and `""` are falsy. -/
def jsTruthyStr (o : Option String) : Bool :=
  match o with
  | none => false
  | some s => s != ""

/-- `x || y` on two nullable numbers followed by `|| 0`. -/
def jsOrQ (a b : Option ℚ) : ℚ :=
  if jsTruthyQ a then jsNum a else if jsTruthyQ b then jsNum b else 0

/-- `Math.round(x * 100) / 100`: rounding to 2 decimal places, halves up. -/
def round2 (x : ℚ) : ℚ := (round (x * 100) : ℤ) / 100

/-- `prisma.package.findUnique({ where: { id } })`. -/
def findPackage (db : DB) (pid : Nat) : Option Package :=
  db.packages.find? (fun p => p.id == pid)

/-- `prisma.package.findMany({ where: { id: { in: ids } } })`: the stored rows
whose id occurs in `ids` (each stored row at most once). -/
def findManyPackages (db : DB) (ids : List Nat) : List Package :=
  db.packages.filter (fun p => ids.contains p.id)

/-- Price of a package id, 0 if missing (used only to state spec formulas). -/
def priceOf (db : DB) (pid : Nat) : ℚ :=
  ((findPackage db pid).map (·.price)).getD 0

/-- `prisma.user.findUnique({ where: { id } })`. -/
def findUser (db : DB) (uid : Nat) : Option User :=
  db.users.find? (fun u => u.id == uid)

/-- `prisma.user.findUnique` with the active Boss/Staff barber filter. -/
def findUserBarber (db : DB) (uid : Nat) : Option User :=
  db.users.find? (fun u =>
    u.id == uid && (u.role == Role.Boss || u.role == Role.Staff) && u.isActive)

/-- `prisma.discountCode.findUnique({ where: { code, isActive: true } })`. -/
def findActiveCode (db : DB) (c : String) : Option DiscountCode :=
  db.discountCodes.find? (fun d => d.code == c && d.isActive)

/-- `prisma.discountCodeUsage.findUnique({ where: { discountCodeId_clientId } })`. -/
def findUsage (db : DB) (codeId clientId : Nat) : Option DiscountCodeUsage :=
  db.usages.find? (fun u => u.discountCodeId == codeId && u.clientId == clientId)

/-- `prisma.discountCodeUsage.findFirst` excluding one appointment
(the edit path's "excluding current appointment" usage check). -/
def findUsageExcluding (db : DB) (codeId clientId apptId : Nat) :
    Option DiscountCodeUsage :=
  db.usages.find? (fun u =>
    u.discountCodeId == codeId && u.clientId == clientId && u.appointmentId != apptId)

/-- A fresh appointment id (autoincrement primary key). -/
def freshApptId (db : DB) : Nat :=
  (db.appointments.map (·.id)).foldr max 0 + 1

/-! ### createAppointment (appointmentController.ts, second revision) -/

/-- Error outcomes of `createAppointment`. -/
inductive CreateErr
  | missingFields
  | clientNotFound
  | packageNotFound
  | barberNotFound
  | additionalPackagesNotFound
  | discountAlreadyUsed
  | discountNotApplicable
  | invalidDiscountCode
  | internalError
deriving DecidableEq, Repr

/-- Request body of `POST /appointments` (the fields the pricing logic reads). -/
structure CreateInput where
  clientId : Nat
  packageId : Nat
  barberId : Option Nat
  additionalPackages : Option (List Nat)
  discountCode : Option String
deriving DecidableEq, Repr

/-- The values `createAppointment` computes before persisting. -/
structure CreatePlan where
  originalPrice : ℚ
  discountAmount : ℚ
  finalPrice : ℚ
  discountCodeId : Option Nat
deriving DecidableEq, Repr

/-- The discount computation inside `createAppointment` (lines 1624–1659):
restricted to applicable packages when `applicablePackages` is non-empty,
otherwise applied to the whole original price. -/
def computeCreateDiscount (db : DB) (dc : DiscountCode) (packageId : Nat)
    (basePrice : ℚ) (adds : List Nat) (originalPrice : ℚ) : Except CreateErr ℚ :=
  if dc.applicablePackages ≠ [] then
    let basePackageApplicable := dc.applicablePackages.contains packageId
    let applicableAdditionalPackages :=
      adds.filter (fun i => dc.applicablePackages.contains i)
    if ¬ basePackageApplicable ∧ applicableAdditionalPackages = [] then
      .error .discountNotApplicable
    else
      let discountableAmount :=
        (if basePackageApplicable then basePrice else 0) +
          ((findManyPackages db applicableAdditionalPackages).map (·.price)).sum
      .ok (round2 (discountableAmount * jsNum dc.discountPercent / 100))
  else
    .ok (round2 (originalPrice * jsNum dc.discountPercent / 100))

/-- Validation and pricing of `createAppointment` (lines 1512–1669), up to but
not including the database writes. -/
def createPlan (db : DB) (inp : CreateInput) : Except CreateErr CreatePlan :=
  if inp.clientId = 0 ∨ inp.packageId = 0 then .error .missingFields
  else if ¬ db.clients.contains inp.clientId then .error .clientNotFound
  else
    match findPackage db inp.packageId with
    | none => .error .packageNotFound
    | some packageData =>
      if jsTruthyNat inp.barberId ∧ findUserBarber db (inp.barberId.getD 0) = none then
        .error .barberNotFound
      else
        let adds := inp.additionalPackages.getD []
        let additionalPackagesData := findManyPackages db adds
        if adds ≠ [] ∧ additionalPackagesData.length ≠ adds.length then
          .error .additionalPackagesNotFound
        else
          let originalPrice := packageData.price + (additionalPackagesData.map (·.price)).sum
          if jsTruthyStr inp.discountCode then
            match findActiveCode db (inp.discountCode.getD "") with
            | none => .error .invalidDiscountCode
            | some dc =>
              if (findUsage db dc.id inp.clientId).isSome then
                .error .discountAlreadyUsed
              else
                match computeCreateDiscount db dc inp.packageId packageData.price adds originalPrice with
                | .error e => .error e
                | .ok discountAmount =>
                  .ok ⟨originalPrice, discountAmount, originalPrice - discountAmount, some dc.id⟩
          else
            .ok ⟨originalPrice, 0, originalPrice, none⟩

/-- The appointment row `createAppointment` inserts (`prisma.appointment.create`,
lines 1672–1685): note `discountAmount: discountAmount || null`. -/
def mkCreatedAppointment (db : DB) (inp : CreateInput) (plan : CreatePlan) : Appointment :=
  { id := freshApptId db
    clientId := inp.clientId
    packageId := inp.packageId
    barberId := if jsTruthyNat inp.barberId then inp.barberId else none
    additionalPackages := inp.additionalPackages
    status := .pending
    originalPrice := some plan.originalPrice
    discountCodeId := plan.discountCodeId
    discountAmount := if plan.discountAmount = 0 then none else some plan.discountAmount
    finalPrice := some plan.finalPrice }

/-- `createAppointment`: validation/pricing, then `prisma.appointment.create`,
then — only afterwards, and outside any transaction — the
`prisma.discountCodeUsage.create` (lines 1714–1723).  `usageInsertOk` models
whether that second, separate write succeeds; when it throws, the handler
answers 500 but the already-persisted appointment is not rolled back. -/
def createAppointment (db : DB) (inp : CreateInput) (usageInsertOk : Bool) :
    Except CreateErr Appointment × DB :=
  match createPlan db inp with
  | .error e => (.error e, db)
  | .ok plan =>
    let appt := mkCreatedAppointment db inp plan
    let db1 := { db with appointments := db.appointments ++ [appt] }
    match plan.discountCodeId with
    | none => (.ok appt, db1)
    | some codeId =>
      if usageInsertOk then
        (.ok appt,
          { db1 with usages := db1.usages ++ [⟨codeId, inp.clientId, appt.id⟩] })
      else
        (.error .internalError, db1)

/-! ### applyMultipleDiscounts (appointmentController.ts, lines 1428–1510) -/

/-- One entry of a `multipleDiscountCodes` request. -/
structure DiscountRequest where
  code : String
  appliedToPackages : List Nat
deriving DecidableEq, Repr

/-- One applied discount returned by `applyMultipleDiscounts`. -/
structure AppliedDiscount where
  discountCodeId : Nat
  appliedToPackages : List Nat
  discountAmount : ℚ
  code : String
deriving DecidableEq, Repr

/-- The errors thrown by `applyMultipleDiscounts`. -/
inductive MultiErr
  | codeNotFoundOrInactive (code : String)
  | alreadyUsed (code : String)
  | notApplicable (code : String)
deriving DecidableEq, Repr

/-- The helper `applyMultipleDiscounts`: for each requested code it checks
existence/activity, prior usage by this client, and (when the code is
package-scoped) that every requested package is applicable; the discountable
amount is summed over the request's `appliedToPackages` with multiplicity,
looking each id up among the fetched base+additional packages. -/
def applyMultipleDiscounts (db : DB) (clientId packageId : Nat)
    (additionalPackages : List Nat) :
    List DiscountRequest → Except MultiErr (List AppliedDiscount × ℚ)
  | [] => .ok ([], 0)
  | r :: rest =>
    match findActiveCode db r.code with
    | none => .error (.codeNotFoundOrInactive r.code)
    | some dc =>
      if (findUsage db dc.id clientId).isSome then .error (.alreadyUsed r.code)
      else if dc.applicablePackages ≠ [] ∧
          r.appliedToPackages.filter (fun p => ¬ dc.applicablePackages.contains p) ≠ [] then
        .error (.notApplicable r.code)
      else
        let packages := findManyPackages db (packageId :: additionalPackages)
        let discountableAmount :=
          (r.appliedToPackages.map (fun pid =>
            match packages.find? (fun p => p.id == pid) with
            | some p => p.price
            | none => 0)).sum
        let discountAmount := round2 (discountableAmount * jsNum dc.discountPercent / 100)
        match applyMultipleDiscounts db clientId packageId additionalPackages rest with
        | .error e => .error e
        | .ok (ds, total) =>
          .ok (⟨dc.id, r.appliedToPackages, discountAmount, r.code⟩ :: ds,
               discountAmount + total)

/-! ### updateAppointmentStatus (appointmentController.ts, lines 1857–2092) -/

/-- JavaScript's three-valued optional request field:
absent (`undefined`), explicit `null`, or a value. -/
inductive JsOpt (α : Type)
  | undef
  | null
  | val (a : α)
deriving DecidableEq, Repr

/-- JavaScript truthiness of a three-valued numeric request field. -/
def JsOpt.truthyNat : JsOpt Nat → Bool
  | .val b => b != 0
  | _ => false

/-- The numeric value of a three-valued request field (0 when absent/null). -/
def JsOpt.toVal : JsOpt Nat → Nat
  | .val b => b
  | _ => 0

/-- Error outcomes of `updateAppointmentStatus`. -/
inductive UpdateErr
  | invalidId
  | invalidStatus
  | appointmentNotFound
  | invalidAdditionalPackages
  | invalidBarber
  | permissionDenied
  | internalError
deriving DecidableEq, Repr

/-- Request body of `PUT /appointments/:id` (the fields the handler reads). -/
structure UpdateInput where
  status : Option String
  appointmentDate : Option String
  additionalPackages : Option (List Nat)
  finalPrice : Option ℚ
  barberId : JsOpt Nat
  discountCodeId : JsOpt Nat
  discountAmount : JsOpt ℚ
  multipleDiscountCodes : Option (List DiscountRequest)
deriving DecidableEq, Repr

/-- `['pending', 'confirmed', 'completed', 'cancelled']`. -/
def validStatuses : List String := ["pending", "confirmed", "completed", "cancelled"]

/-- Parse one of the four valid status strings. -/
def statusOfString (s : String) : Option Status :=
  if s = "pending" then some .pending
  else if s = "confirmed" then some .confirmed
  else if s = "completed" then some .completed
  else if s = "cancelled" then some .cancelled
  else none

/-- The `barberId` the updated appointment ends up with: start from the stored
value, apply the explicit-reassignment block, then the auto-assignment block
(lines 1910–1982).  Returns an error exactly when the handler answers 400/403
in those blocks.  `reqUser` is the authenticated user id, if any. -/
def resolveBarberUpdate (db : DB) (existing : Appointment) (inp : UpdateInput)
    (reqUser : Option Nat) : Except UpdateErr (Option Nat) :=
  -- explicit barber change (only reached when the request mentions barberId
  -- and the request is authenticated)
  let afterExplicit : Except UpdateErr (Option Nat) :=
    match inp.barberId, reqUser with
    | .undef, _ => .ok existing.barberId
    | _, none => .ok existing.barberId
    | .null, some uid =>
      match findUser db uid with
      | some u =>
        if u.role = .Boss ∨ u.role = .Staff then .ok none
        else .error .permissionDenied
      | none => .error .permissionDenied
    | .val b, some uid =>
      match findUser db uid with
      | some u =>
        if u.role = .Boss ∨ u.role = .Staff then
          match findUserBarber db b with
          | some _ => .ok (some b)
          | none => .error .invalidBarber
        else .error .permissionDenied
      | none => .error .permissionDenied
  match afterExplicit with
  | .error e => .error e
  | .ok barberAfterExplicit =>
    -- auto-assignment on completion: overrides updateData.barberId whenever
    -- the acting user is Boss/Staff and the *stored* appointment has no barber
    match inp.status, reqUser with
    | some s, some uid =>
      if s = "completed" then
        match findUser db uid with
        | some u =>
          if (u.role = .Boss ∨ u.role = .Staff) ∧ ¬ jsTruthyNat existing.barberId then
            .ok (some u.id)
          else .ok barberAfterExplicit
        | none => .ok barberAfterExplicit
      else .ok barberAfterExplicit
    | _, _ => .ok barberAfterExplicit

/-- The body of `updateAppointmentStatus` after the status-string validation:
appointment lookup, additional-package validation on completion, barber
resolution, then the transactional update together with the discount-usage
writes. -/
def updateAppointmentStatusChecked (db : DB) (apptId : Nat) (inp : UpdateInput)
    (reqUser : Option Nat) : Except UpdateErr Appointment × DB :=
  match db.appointments.find? (fun a => a.id == apptId) with
  | none => (.error .appointmentNotFound, db)
  | some existing =>
    let adds := inp.additionalPackages.getD []
    if inp.status = some "completed" ∧ adds ≠ [] ∧
        (findManyPackages db adds).length ≠ adds.length then
      (.error .invalidAdditionalPackages, db)
    else
      match resolveBarberUpdate db existing inp reqUser with
      | .error e => (.error e, db)
      | .ok newBarberId =>
        let updated : Appointment :=
          { existing with
            status := match inp.status with
              | some s => (statusOfString s).getD existing.status
              | none => existing.status
            additionalPackages := match inp.additionalPackages with
              | some l => some l
              | none => existing.additionalPackages
            finalPrice := match inp.finalPrice with
              | some q => some q
              | none => existing.finalPrice
            discountCodeId := match inp.discountCodeId with
              | .undef => existing.discountCodeId
              | .null => none
              | .val c => if c ≠ 0 then some c else none
            discountAmount := match inp.discountAmount with
              | .undef => existing.discountAmount
              | .null => none
              | .val q => if q ≠ 0 then some q else none
            barberId := newBarberId }
        let db1 :=
          { db with appointments :=
              db.appointments.map (fun a => if a.id == apptId then updated else a) }
        -- discount-usage writes inside the same transaction
        if inp.status = some "completed" ∧ (inp.multipleDiscountCodes.getD []) ≠ [] then
          match applyMultipleDiscounts db updated.clientId updated.packageId
              (inp.additionalPackages.getD []) (inp.multipleDiscountCodes.getD []) with
          | .error _ => (.error .internalError, db)   -- transaction rolls back
          | .ok (appliedDiscounts, _) =>
            let db2 := appliedDiscounts.foldl (fun acc d =>
              { acc with
                appointmentDiscounts := acc.appointmentDiscounts ++
                  [⟨updated.id, d.discountCodeId, d.appliedToPackages, d.discountAmount⟩]
                usages := acc.usages ++
                  [⟨d.discountCodeId, updated.clientId, updated.id⟩] }) db1
            (.ok updated, db2)
        else if inp.status = some "completed" ∧ inp.discountCodeId.truthyNat then
          let c := inp.discountCodeId.toVal
          -- usage insert with the duplicate-key error swallowed
          if (findUsage db1 c updated.clientId).isSome then (.ok updated, db1)
          else (.ok updated,
            { db1 with usages := db1.usages ++ [⟨c, updated.clientId, updated.id⟩] })
        else (.ok updated, db1)

/-- `updateAppointmentStatus`: status validation (membership in
`validStatuses` only — the current status is never consulted), then the
checked body. -/
def updateAppointmentStatus (db : DB) (apptId : Nat) (inp : UpdateInput)
    (reqUser : Option Nat) : Except UpdateErr Appointment × DB :=
  match inp.status with
  | some s =>
    if s ∉ validStatuses then (.error .invalidStatus, db)
    else updateAppointmentStatusChecked db apptId inp reqUser
  | none => updateAppointmentStatusChecked db apptId inp reqUser

/-! ### editAppointment (appointmentController.ts, lines 2094–2493) -/

/-- The `discountAppliedTo` request object of `editAppointment`. -/
structure DiscountAppliedTo where
  basePackage : Bool
  additionalPackages : Option (List Nat)
deriving DecidableEq, Repr

/-- Error outcomes of `editAppointment`. -/
inductive EditErr
  | invalidId
  | unauthorized
  | appointmentNotFound
  | clientNotFound
  | packageNotFound
  | barberNotFound
  | additionalPackagesNotFound
  | discountAlreadyUsed
  | discountNotApplicable
  | invalidDiscountCode
  | failedToApplyDiscountCodes
  | internalError
deriving DecidableEq, Repr

/-- Request body of `PATCH /appointments/:id`. -/
structure EditInput where
  clientId : Option Nat
  packageId : Option Nat
  barberId : JsOpt Nat
  additionalPackages : Option (List Nat)
  discountCode : Option String
  discountAppliedTo : Option DiscountAppliedTo
  removeDiscount : Bool
  multipleDiscountCodes : Option (List DiscountRequest)
deriving DecidableEq, Repr

/-- Delete the usage rows matching `(discountCodeId, clientId, appointmentId)`
(`prisma.discountCodeUsage.deleteMany`). -/
def deleteUsage (db : DB) (codeId clientId apptId : Nat) : DB :=
  { db with usages := db.usages.filter (fun u =>
      ¬ (u.discountCodeId = codeId ∧ u.clientId = clientId ∧ u.appointmentId = apptId)) }

/-- The discount branch of `editAppointment` (lines 2229–2433).  Returns the
computed `(discountAmount, finalPrice, newDiscountCodeId)` together with the
store as mutated by the ledger reconciliation. -/
def editDiscountPhase (db : DB) (apptId : Nat) (inp : EditInput)
    (existing : Appointment) (originalPrice : ℚ) :
    Except EditErr (ℚ × ℚ × Option Nat × DB) :=
  if inp.removeDiscount then
    let db1 :=
      match existing.discountCodeId with
      | some oldCode => deleteUsage db oldCode existing.clientId apptId
      | none => db
    .ok (0, originalPrice, none, db1)
  else if jsTruthyStr inp.discountCode then
    match findActiveCode db (inp.discountCode.getD "") with
    | none => .error .invalidDiscountCode
    | some dc =>
      let targetClientId := if jsTruthyNat inp.clientId then inp.clientId.getD 0
                            else existing.clientId
      if (findUsageExcluding db dc.id targetClientId apptId).isSome then
        .error .discountAlreadyUsed
      else
        let targetPackageId := if jsTruthyNat inp.packageId then inp.packageId.getD 0
                               else existing.packageId
        let targetAdditionalPackages :=
          match inp.additionalPackages with
          | some l => l
          | none => existing.additionalPackages.getD []
        let basePackageApplicable := dc.applicablePackages.contains targetPackageId
        let applicableAdditionalPackages :=
          targetAdditionalPackages.filter (fun i => dc.applicablePackages.contains i)
        if dc.applicablePackages ≠ [] ∧
            ¬ basePackageApplicable ∧ applicableAdditionalPackages = [] then
          .error .discountNotApplicable
        else
          let basePart : ℚ :=
            if (inp.discountAppliedTo.map (·.basePackage)).getD false then
              match findPackage db targetPackageId with
              | some basePackage => basePackage.price
              | none => 0
            else 0
          let addPart : ℚ :=
            match inp.discountAppliedTo with
            | some dat =>
              match dat.additionalPackages with
              | some l => ((findManyPackages db l).map (·.price)).sum
              | none => 0
            | none => 0
          let discountableAmount := basePart + addPart
          let discountAmount := round2 (discountableAmount * jsNum dc.discountPercent / 100)
          let finalPrice := originalPrice - discountAmount
          let db1 :=
            if existing.discountCodeId ≠ some dc.id then
              let dbDel :=
                match existing.discountCodeId with
                | some oldCode => deleteUsage db oldCode existing.clientId apptId
                | none => db
              -- create, falling back to updating the conflicting row (P2002)
              if (findUsage dbDel dc.id targetClientId).isSome then
                { dbDel with usages := dbDel.usages.map (fun u =>
                    if u.discountCodeId = dc.id ∧ u.clientId = targetClientId then
                      { u with appointmentId := apptId }
                    else u) }
              else
                { dbDel with usages := dbDel.usages ++ [⟨dc.id, targetClientId, apptId⟩] }
            else db
          .ok (discountAmount, finalPrice, some dc.id, db1)
  else if (inp.multipleDiscountCodes.getD []) ≠ [] then
    let targetClientId := if jsTruthyNat inp.clientId then inp.clientId.getD 0
                          else existing.clientId
    let targetPackageId := if jsTruthyNat inp.packageId then inp.packageId.getD 0
                           else existing.packageId
    let targetAdditionalPackages :=
      match inp.additionalPackages with
      | some l => l
      | none => existing.additionalPackages.getD []
    -- clear this appointment's AppointmentDiscount and usage rows first
    let db1 :=
      { db with
        appointmentDiscounts :=
          db.appointmentDiscounts.filter (fun d => d.appointmentId ≠ apptId)
        usages := db.usages.filter (fun u => u.appointmentId ≠ apptId) }
    match applyMultipleDiscounts db1 targetClientId targetPackageId
        targetAdditionalPackages (inp.multipleDiscountCodes.getD []) with
    | .error _ => .error .failedToApplyDiscountCodes
    | .ok (appliedDiscounts, totalDiscountAmount) =>
      let db2 := appliedDiscounts.foldl (fun acc d =>
        { acc with
          appointmentDiscounts := acc.appointmentDiscounts ++
            [⟨apptId, d.discountCodeId, d.appliedToPackages, d.discountAmount⟩]
          usages := acc.usages ++ [⟨d.discountCodeId, targetClientId, apptId⟩] }) db1
      .ok (totalDiscountAmount, originalPrice - totalDiscountAmount, none, db2)
  else
    match existing.discountCodeId with
    | some oldCode =>
      let discountAmount := jsNum existing.discountAmount
      .ok (discountAmount, originalPrice - discountAmount, some oldCode, db)
    | none => .ok (0, originalPrice, existing.discountCodeId, db)

/-- The authorization check of `editAppointment`: when a user is
authenticated, they must resolve to a Boss or Staff user. -/
def editAuthOk (db : DB) (reqUser : Option Nat) : Bool :=
  match reqUser with
  | none => true
  | some uid =>
    match findUser db uid with
    | some u => u.role == Role.Boss || u.role == Role.Staff
    | none => false

/-- The base-package resolution of `editAppointment`: the new package when it
is being changed (404 when missing), else the joined existing package (whose
absence would surface as a thrown runtime error, i.e. a 500). -/
def editBasePackage (db : DB) (inp : EditInput) (existing : Appointment) :
    Except EditErr Package :=
  if jsTruthyNat inp.packageId ∧ inp.packageId ≠ some existing.packageId then
    match findPackage db (inp.packageId.getD 0) with
    | some p => .ok p
    | none => .error .packageNotFound
  else
    match findPackage db existing.packageId with
    | some p => .ok p
    | none => .error .internalError

/-- `editAppointment`: authorization, entity validation, from-scratch price
recomputation, discount reconciliation, and the final
`prisma.appointment.update` (lines 2436–2478). -/
def editAppointment (db : DB) (apptId : Nat) (inp : EditInput)
    (reqUser : Option Nat) : Except EditErr Appointment × DB :=
  if ¬ editAuthOk db reqUser then (.error .unauthorized, db)
  else
    match db.appointments.find? (fun a => a.id == apptId) with
    | none => (.error .appointmentNotFound, db)
    | some existing =>
      if jsTruthyNat inp.clientId ∧ inp.clientId ≠ some existing.clientId ∧
          ¬ db.clients.contains (inp.clientId.getD 0) then
        (.error .clientNotFound, db)
      else
        match editBasePackage db inp existing with
        | .error e => (.error e, db)
        | .ok packageData =>
          if inp.barberId.truthyNat ∧
              inp.barberId ≠ (match existing.barberId with
                              | some b => .val b | none => .null) ∧
              (findUserBarber db inp.barberId.toVal) = none then
            (.error .barberNotFound, db)
          else
            let updatedAdditionalPackages : Option (List Nat) :=
              match inp.additionalPackages with
              | some l => some l
              | none => existing.additionalPackages
            let adds := updatedAdditionalPackages.getD []
            let additionalPackagesData := findManyPackages db adds
            if adds ≠ [] ∧ additionalPackagesData.length ≠ adds.length then
              (.error .additionalPackagesNotFound, db)
            else
              let originalPrice :=
                packageData.price + (additionalPackagesData.map (·.price)).sum
              match editDiscountPhase db apptId inp existing originalPrice with
              | .error e => (.error e, db)
              | .ok (discountAmount, finalPrice, newDiscountCodeId, db1) =>
                let updated : Appointment :=
                  { existing with
                    clientId := if jsTruthyNat inp.clientId then inp.clientId.getD 0
                                else existing.clientId
                    packageId := if jsTruthyNat inp.packageId then inp.packageId.getD 0
                                 else existing.packageId
                    barberId := match inp.barberId with
                      | .undef => existing.barberId
                      | .null => none
                      | .val b => if b ≠ 0 then some b else none
                    additionalPackages := updatedAdditionalPackages
                    originalPrice := some originalPrice
                    finalPrice := some finalPrice
                    discountCodeId := newDiscountCodeId
                    discountAmount := if discountAmount = 0 then none
                                      else some discountAmount }
                (.ok updated,
                  { db1 with appointments :=
                      db1.appointments.map (fun a => if a.id == apptId then updated else a) })

/-! ### Financial reporting (financialController.ts, lines 700–830) -/

/-- The commission an appointment contributes to `totalCommissionPaid`
(lines 760–768): nothing without a barber with a truthy commission rate,
otherwise `(apt.originalPrice || apt.finalPrice || 0) * rate / 100`. -/
def commissionContribution (db : DB) (apt : Appointment) : ℚ :=
  match apt.barberId.bind (fun b => findUser db b) with
  | some barber =>
    if jsTruthyQ barber.commissionRate then
      let priceForCommission := jsOrQ apt.originalPrice apt.finalPrice
      priceForCommission * (jsNum barber.commissionRate / 100)
    else 0
  | none => 0

/-- The completed appointments the financial overview aggregates:
`status: 'completed', finalPrice: { not: null }`. -/
def completedAppointments (db : DB) : List Appointment :=
  db.appointments.filter (fun a => a.status == Status.completed && a.finalPrice.isSome)

/-- `totalCommissionPaid` of `getFinancialOverview`. -/
def totalCommissionPaid (db : DB) : ℚ :=
  (completedAppointments db).foldl (fun sum apt => sum + commissionContribution db apt) 0

/-! ### Spec-side definitions (for refinement comparison) -/

/-- The spec's discountable amount: the sum of the prices of the selected
packages (base package plus additional packages) contained in the code's
`applicablePackages` set, or the full original price when `applicablePackages`
is empty.  Stated from the spec's words, to be compared with the source's
computation. -/
def specDiscountableAmount (db : DB) (dc : DiscountCode) (packageId : Nat)
    (adds : List Nat) (originalPrice : ℚ) : ℚ :=
  if dc.applicablePackages = [] then originalPrice
  else (((packageId :: adds).filter
          (fun i => dc.applicablePackages.contains i)).map (priceOf db)).sum

/-! ### Concrete stores and requests used to instantiate the theorems -/

/-- Store for C1: one RM50 package, two 60%-off codes, one pending appointment. -/
def C1db : DB :=
  { clients := [1]
    users := []
    packages := [⟨1, 50⟩]
    discountCodes :=
      [⟨11, "A60", .percentage, some 60, none, [], true⟩,
       ⟨12, "B60", .percentage, some 60, none, [], true⟩]
    appointments := [⟨5, 1, 1, none, none, .pending, some 50, none, none, some 50⟩]
    usages := []
    appointmentDiscounts := [] }

/-- C1 edit request: apply both 60% codes to the base package. -/
def C1inp : EditInput :=
  ⟨none, none, .undef, none, none, none, false, some [⟨"A60", [1]⟩, ⟨"B60", [1]⟩]⟩

/-- Store for the C1 witness (also the C3 scenario store): packages RM50 and
RM30, code SAVE10 at 10% applicable to all. -/
def C1wdb : DB :=
  { clients := [1]
    users := []
    packages := [⟨1, 50⟩, ⟨2, 30⟩]
    discountCodes := [⟨7, "SAVE10", .percentage, some 10, none, [], true⟩]
    appointments := []
    usages := []
    appointmentDiscounts := [] }

/-- C1 witness create request. -/
def C1winp : CreateInput := ⟨1, 1, none, some [2], some "SAVE10"⟩

/-- Store for C2: a completed appointment of a 40%-commission barber with
`originalPrice = 0` and `finalPrice = 100`. -/
def C2db : DB :=
  { clients := [1]
    users := [⟨7, .Staff, true, some 40⟩]
    packages := []
    discountCodes := []
    appointments := [⟨1, 1, 1, some 7, none, .completed, some 0, none, none, some 100⟩]
    usages := []
    appointmentDiscounts := [] }

/-- The C2 counterexample appointment row. -/
def C2appt : Appointment := ⟨1, 1, 1, some 7, none, .completed, some 0, none, none, some 100⟩

/-- Store for the C2 witness: same barber, `originalPrice = 80`, `finalPrice = 72`. -/
def C2wappt : Appointment := ⟨1, 1, 1, some 7, none, .completed, some 80, none, some 8, some 72⟩

/-- Witness store for C2. -/
def C2wdb : DB := { C2db with appointments := [C2wappt] }

/-- Store for C3, the spec's scenario: base RM50, additional RM30, SAVE10 at
10% applicable to all. -/
def C3db : DB :=
  { clients := [1]
    users := []
    packages := [⟨1, 50⟩, ⟨2, 30⟩]
    discountCodes := [⟨7, "SAVE10", .percentage, some 10, none, [], true⟩]
    appointments := []
    usages := []
    appointmentDiscounts := [] }

/-- C3 scenario create request. -/
def C3inp : CreateInput := ⟨1, 1, none, some [2], some "SAVE10"⟩

/-- Store for C4: base RM50 and an active fixed-amount RM10 code. -/
def C4db : DB :=
  { clients := [1]
    users := []
    packages := [⟨1, 50⟩]
    discountCodes := [⟨1, "FIXED10", .fixed_amount, none, some 10, [], true⟩]
    appointments := []
    usages := []
    appointmentDiscounts := [] }

/-- C4 create request using the fixed-amount code. -/
def C4inp : CreateInput := ⟨1, 1, none, none, some "FIXED10"⟩

/-- Store for C5/C6: SAVE10 code already used by client 1 on appointment 99. -/
def C5db : DB :=
  { clients := [1]
    users := []
    packages := [⟨1, 50⟩, ⟨2, 30⟩]
    discountCodes := [⟨7, "SAVE10", .percentage, some 10, none, [], true⟩]
    appointments := []
    usages := [⟨7, 1, 99⟩]
    appointmentDiscounts := [] }

/-- C6 create request re-using the already-consumed code. -/
def C6inp : CreateInput := ⟨1, 1, none, some [2], some "SAVE10"⟩

/-- Store for C7/C8: one completed (C7) appointment and a Staff user. -/
def C7db : DB :=
  { clients := [1]
    users := [⟨9, .Staff, true, some 40⟩]
    packages := [⟨1, 50⟩]
    discountCodes := []
    appointments := [⟨5, 1, 1, none, none, .completed, some 50, none, none, some 50⟩]
    usages := []
    appointmentDiscounts := [] }

/-- C7 request: move the completed appointment back to pending. -/
def C7inp : UpdateInput := ⟨some "pending", none, none, none, .undef, .undef, .undef, none⟩

/-- Store for C8: a pending appointment with no barber assigned. -/
def C8db : DB :=
  { clients := [1]
    users := [⟨9, .Staff, true, some 40⟩]
    packages := [⟨1, 50⟩]
    discountCodes := []
    appointments := [⟨5, 1, 1, none, none, .pending, some 50, none, none, some 50⟩]
    usages := []
    appointmentDiscounts := [] }

/-- Store for C8's already-assigned case: barber 3 already set. -/
def C8db2 : DB :=
  { C8db with appointments :=
      [⟨5, 1, 1, some 3, none, .pending, some 50, none, none, some 50⟩] }

/-- The completion request used by C8. -/
def C8inp : UpdateInput := ⟨some "completed", none, none, none, .undef, .undef, .undef, none⟩

/-- Store for C9: same data as C3 (a discounted creation). -/
def C9db : DB :=
  { clients := [1]
    users := []
    packages := [⟨1, 50⟩, ⟨2, 30⟩]
    discountCodes := [⟨7, "SAVE10", .percentage, some 10, none, [], true⟩]
    appointments := []
    usages := []
    appointmentDiscounts := [] }

/-- C9 create request with a discount code. -/
def C9inp : CreateInput := ⟨1, 1, none, some [2], some "SAVE10"⟩

/-- The appointment row C9's failed run persists anyway. -/
def C9appt : Appointment :=
  ⟨1, 1, 1, none, some [2], .pending, some 80, some 7, some 8, some 72⟩

/-- Store for C10: both referenced packages exist. -/
def C10db : DB :=
  { clients := [1]
    users := []
    packages := [⟨1, 50⟩, ⟨2, 30⟩]
    discountCodes := []
    appointments := [⟨5, 1, 1, none, none, .pending, some 50, none, none, some 50⟩]
    usages := []
    appointmentDiscounts := [] }

/-- C10 create request listing package 2 twice. -/
def C10cinp : CreateInput := ⟨1, 1, none, some [2, 2], none⟩

/-- C10 edit request listing package 2 twice. -/
def C10einp : EditInput := ⟨none, none, .undef, some [2, 2], none, none, false, none⟩

/-- The appointment the C1 witness run persists. -/
def C1wappt : Appointment :=
  ⟨1, 1, 1, none, some [2], .pending, some 80, some 7, some 8, some 72⟩

/-- The store after the C1 witness run. -/
def C1wdbAfter : DB :=
  { C1wdb with appointments := [C1wappt], usages := [⟨7, 1, 1⟩] }

/-- The appointment the C1 counterexample edit produces. -/
def C1appt : Appointment :=
  ⟨5, 1, 1, none, none, .pending, some 50, none, some 60, some (-10)⟩

/-- Store for C6 (same shape as C5's): the code is already used by client 1. -/
def C6db : DB :=
  { clients := [1]
    users := []
    packages := [⟨1, 50⟩, ⟨2, 30⟩]
    discountCodes := [⟨7, "SAVE10", .percentage, some 10, none, [], true⟩]
    appointments := []
    usages := [⟨7, 1, 99⟩]
    appointmentDiscounts := [] }

/-- The completed appointment row stored in C7db. -/
def C7completedAppt : Appointment :=
  ⟨5, 1, 1, none, none, .completed, some 50, none, none, some 50⟩

/-- The pending appointment row stored in C8db. -/
def C8appt0 : Appointment :=
  ⟨5, 1, 1, none, none, .pending, some 50, none, none, some 50⟩

/-- The pending appointment row with barber 3 stored in C8db2. -/
def C8appt3 : Appointment :=
  ⟨5, 1, 1, some 3, none, .pending, some 50, none, none, some 50⟩

/-! ### List lemmas about `findManyPackages` -/

theorem findMany_id_nodup (db : DB) (hwf : db.WFpackages) (ids : List Nat) :
    ((findManyPackages db ids).map (·.id)).Nodup :=
  hwf.sublist ((List.filter_sublist db.packages).map (·.id))

theorem findMany_id_subset (db : DB) (ids : List Nat) :
    ∀ x ∈ (findManyPackages db ids).map (·.id), x ∈ ids := by
  intro x hx
  rcases List.mem_map.mp hx with ⟨p, hp, rfl⟩
  have := List.of_mem_filter hp
  simpa using this

theorem findMany_length_le_dedup (db : DB) (hwf : db.WFpackages) (ids : List Nat) :
    (findManyPackages db ids).length ≤ ids.dedup.length := by
  have hsub : (findManyPackages db ids).map (·.id) ⊆ ids.dedup := by
    intro x hx
    exact List.mem_dedup.mpr (findMany_id_subset db ids x hx)
  have := ((findMany_id_nodup db hwf ids).subperm hsub).length_le
  simpa using this

theorem dedup_length_lt_of_not_nodup {ids : List Nat} (h : ¬ ids.Nodup) :
    ids.dedup.length < ids.length := by
  rcases Nat.lt_or_ge ids.dedup.length ids.length with hlt | hge
  · exact hlt
  · exfalso
    have hle := ids.dedup_sublist.length_le
    have hdl : ids.dedup.length = ids.length := Nat.le_antisymm hle hge
    exact h (List.dedup_eq_self.mp (ids.dedup_sublist.eq_of_length hdl))

theorem findMany_length_lt_of_not_nodup (db : DB) (hwf : db.WFpackages)
    {ids : List Nat} (h : ¬ ids.Nodup) :
    (findManyPackages db ids).length < ids.length :=
  lt_of_le_of_lt (findMany_length_le_dedup db hwf ids) (dedup_length_lt_of_not_nodup h)

theorem nodup_of_findMany_length_eq (db : DB) (hwf : db.WFpackages)
    {ids : List Nat} (h : (findManyPackages db ids).length = ids.length) :
    ids.Nodup := by
  by_contra hnd
  exact absurd h (Nat.ne_of_lt (findMany_length_lt_of_not_nodup db hwf hnd))

theorem present_of_findMany_length_eq (db : DB) (hwf : db.WFpackages)
    {ids : List Nat} (h : (findManyPackages db ids).length = ids.length) :
    ∀ i ∈ ids, (findPackage db i).isSome := by
  intro i hi
  by_contra hnone
  have hfnone : findPackage db i = none := by
    cases hfp : findPackage db i with
    | none => rfl
    | some p => rw [hfp] at hnone; simp at hnone
  have hnotin : ∀ p ∈ db.packages, p.id ≠ i := by
    intro p hp
    have := List.find?_eq_none.mp hfnone p hp
    simpa using this
  have hnd := nodup_of_findMany_length_eq db hwf h
  have hsub : (findManyPackages db ids).map (·.id) ⊆ ids.erase i := by
    intro x hx
    rcases List.mem_map.mp hx with ⟨p, hp, rfl⟩
    have hxid : p.id ∈ ids := findMany_id_subset db ids p.id hx
    have hne : p.id ≠ i := hnotin p (List.mem_of_mem_filter hp)
    exact (List.mem_erase_of_ne hne).mpr hxid
  have hle := ((findMany_id_nodup db hwf ids).subperm hsub).length_le
  rw [List.length_map, List.length_erase_of_mem hi, h] at hle
  have hpos : 0 < ids.length := List.length_pos.mpr (List.ne_nil_of_mem hi)
  omega

theorem filter_or_map_sum_split (l : List Package) (a b : Package → Bool)
    (hdisj : ∀ x ∈ l, ¬ (a x = true ∧ b x = true)) :
    ((l.filter (fun x => a x || b x)).map (·.price)).sum =
      ((l.filter a).map (·.price)).sum + ((l.filter b).map (·.price)).sum := by
  induction l with
  | nil => simp
  | cons x xs ih =>
    have hx := hdisj x (List.mem_cons_self x xs)
    have ihx := ih (fun y hy => hdisj y (List.mem_cons_of_mem x hy))
    cases ha : a x with
    | false =>
      cases hb : b x with
      | false => simp [List.filter_cons, ha, hb, ihx]
      | true =>
        simp [List.filter_cons, ha, hb, ihx]
        ring
    | true =>
      cases hb : b x with
      | false =>
        simp [List.filter_cons, ha, hb, ihx]
        ring
      | true => exact absurd ⟨ha, hb⟩ hx

theorem filter_id_map_sum_aux (i : Nat) (p : Package) :
    ∀ ps : List Package, (ps.map (·.id)).Nodup →
      ps.find? (fun q => q.id == i) = some p →
      ((ps.filter (fun q => q.id == i)).map (·.price)).sum = p.price := by
  intro ps
  induction ps with
  | nil => intro _ h; simp at h
  | cons x xs ih =>
    intro hwf hp
    rw [List.map_cons] at hwf
    have hwf1 := (List.nodup_cons.mp hwf).1
    have hwf2 := (List.nodup_cons.mp hwf).2
    cases hxi : (x.id == i) with
    | true =>
      rw [List.find?_cons_of_pos xs hxi] at hp
      have hxp : x = p := by simpa using hp
      subst hxp
      have hxi' : x.id = i := by simpa using hxi
      have hnotin : ∀ q ∈ xs, ¬ (q.id == i) = true := by
        intro q hq hqt
        have hqi : q.id = i := by simpa using hqt
        have : x.id ∈ xs.map (·.id) := by
          rw [hxi', ← hqi]
          exact List.mem_map.mpr ⟨q, hq, rfl⟩
        exact hwf1 this
      have hnil : xs.filter (fun q => q.id == i) = [] :=
        List.filter_eq_nil_iff.mpr hnotin
      simp [List.filter_cons, hxi, hnil]
    | false =>
      rw [List.find?_cons_of_neg xs (by simp [hxi])] at hp
      have := ih hwf2 hp
      simp [List.filter_cons, hxi, this]

theorem filter_id_map_sum (db : DB) (hwf : db.WFpackages) (i : Nat) (p : Package)
    (hp : findPackage db i = some p) :
    ((db.packages.filter (fun q => q.id == i)).map (·.price)).sum = p.price :=
  filter_id_map_sum_aux i p db.packages hwf hp

theorem findMany_price_sum (db : DB) (hwf : db.WFpackages) :
    ∀ ids : List Nat, ids.Nodup → (∀ i ∈ ids, (findPackage db i).isSome) →
      ((findManyPackages db ids).map (·.price)).sum = (ids.map (priceOf db)).sum := by
  intro ids
  induction ids with
  | nil => intro _ _; simp [findManyPackages]
  | cons i rest ih =>
    intro hnd hpres
    have hni : i ∉ rest := (List.nodup_cons.mp hnd).1
    have hsplit :
        ((db.packages.filter (fun p => (i :: rest).contains p.id)).map (·.price)).sum =
          ((db.packages.filter (fun p => p.id == i)).map (·.price)).sum +
            ((db.packages.filter (fun p => rest.contains p.id)).map (·.price)).sum := by
      have hdisj : ∀ p ∈ db.packages,
          ¬ ((p.id == i) = true ∧ (rest.contains p.id) = true) := by
        intro p _ ⟨h1, h2⟩
        have h1' : p.id = i := by simpa using h1
        have h2' : p.id ∈ rest := by simpa using h2
        exact hni (h1' ▸ h2')
      have := filter_or_map_sum_split db.packages
        (fun p => p.id == i) (fun p => rest.contains p.id) hdisj
      simpa [List.contains_cons] using this
    have hpi : (findPackage db i).isSome := hpres i (List.mem_cons_self i rest)
    rcases Option.isSome_iff_exists.mp hpi with ⟨p, hp⟩
    have hbase := filter_id_map_sum db hwf i p hp
    have hrest := ih (List.nodup_cons.mp hnd).2
      (fun j hj => hpres j (List.mem_cons_of_mem i hj))
    unfold findManyPackages at hrest ⊢
    rw [hsplit, hbase, hrest, List.map_cons, List.sum_cons]
    have : priceOf db i = p.price := by simp [priceOf, hp]
    rw [this]

/-! ### Inversion lemmas for the operation models -/

/-- Successful `createPlan` runs pass every validation step, and the resulting
plan satisfies the pricing equations of the source. -/
theorem createPlan_ok_inv {db : DB} {inp : CreateInput} {plan : CreatePlan}
    (h : createPlan db inp = .ok plan) :
    ¬ (inp.clientId = 0 ∨ inp.packageId = 0) ∧
    db.clients.contains inp.clientId = true ∧
    ∃ packageData, findPackage db inp.packageId = some packageData ∧
      ¬ (jsTruthyNat inp.barberId = true ∧ findUserBarber db (inp.barberId.getD 0) = none) ∧
      ¬ (inp.additionalPackages.getD [] ≠ [] ∧
          (findManyPackages db (inp.additionalPackages.getD [])).length ≠
            (inp.additionalPackages.getD []).length) ∧
      plan.originalPrice = packageData.price +
        ((findManyPackages db (inp.additionalPackages.getD [])).map (·.price)).sum ∧
      plan.finalPrice = plan.originalPrice - plan.discountAmount ∧
      ((jsTruthyStr inp.discountCode = true ∧
        ∃ dc, findActiveCode db (inp.discountCode.getD "") = some dc ∧
          findUsage db dc.id inp.clientId = none ∧
          plan.discountCodeId = some dc.id ∧
          computeCreateDiscount db dc inp.packageId packageData.price
            (inp.additionalPackages.getD []) plan.originalPrice = .ok plan.discountAmount) ∨
       (jsTruthyStr inp.discountCode = false ∧ plan.discountAmount = 0 ∧
        plan.discountCodeId = none)) := by
  unfold createPlan at h
  by_cases h1 : inp.clientId = 0 ∨ inp.packageId = 0
  · rw [if_pos h1] at h; exact absurd h (by simp)
  rw [if_neg h1] at h
  by_cases h2 : db.clients.contains inp.clientId = true
  · rw [if_neg (not_not_intro h2)] at h
    cases hpkg : findPackage db inp.packageId with
    | none => rw [hpkg] at h; exact absurd h (by simp)
    | some packageData =>
      rw [hpkg] at h
      simp only [] at h
      by_cases h3 : jsTruthyNat inp.barberId = true ∧ findUserBarber db (inp.barberId.getD 0) = none
      · rw [if_pos h3] at h; exact absurd h (by simp)
      rw [if_neg h3] at h
      by_cases h4 : inp.additionalPackages.getD [] ≠ [] ∧
          (findManyPackages db (inp.additionalPackages.getD [])).length ≠
            (inp.additionalPackages.getD []).length
      · rw [if_pos h4] at h; exact absurd h (by simp)
      rw [if_neg h4] at h
      by_cases h5 : jsTruthyStr inp.discountCode = true
      · rw [if_pos h5] at h
        cases hfc : findActiveCode db (inp.discountCode.getD "") with
        | none => rw [hfc] at h; exact absurd h (by simp)
        | some dc =>
          rw [hfc] at h
          simp only [] at h
          by_cases h6 : (findUsage db dc.id inp.clientId).isSome = true
          · rw [if_pos h6] at h; exact absurd h (by simp)
          rw [if_neg h6] at h
          cases hcd : computeCreateDiscount db dc inp.packageId packageData.price
              (inp.additionalPackages.getD [])
              (packageData.price +
                ((findManyPackages db (inp.additionalPackages.getD [])).map (·.price)).sum) with
          | error e => rw [hcd] at h; exact absurd h (by simp)
          | ok d =>
            rw [hcd] at h
            simp only [Except.ok.injEq] at h
            subst h
            refine ⟨h1, h2, packageData, rfl, h3, h4, rfl, rfl, Or.inl ⟨h5, dc, rfl, ?_, rfl, hcd⟩⟩
            cases hfu : findUsage db dc.id inp.clientId with
            | none => rfl
            | some u => rw [hfu] at h6; simp at h6
      · rw [if_neg h5] at h
        simp only [Except.ok.injEq] at h
        subst h
        exact ⟨h1, h2, packageData, rfl, h3, h4, rfl, by simp,
          Or.inr ⟨by simpa using h5, rfl, rfl⟩⟩
  · rw [if_pos (by simpa using h2)] at h
    exact absurd h (by simp)

/-- Every branch of the edit discount phase computes
`finalPrice = originalPrice - discountAmount`. -/
theorem editDiscountPhase_ok_final {db : DB} {apptId : Nat} {inp : EditInput}
    {existing : Appointment} {orig damt fp : ℚ} {cid : Option Nat} {dbX : DB}
    (h : editDiscountPhase db apptId inp existing orig = .ok (damt, fp, cid, dbX)) :
    fp = orig - damt := by
  unfold editDiscountPhase at h
  by_cases hrem : inp.removeDiscount = true
  · rw [if_pos hrem] at h
    simp only [Except.ok.injEq, Prod.mk.injEq] at h
    obtain ⟨h1, h2, -, -⟩ := h
    rw [← h1, ← h2]
    simp
  rw [if_neg hrem] at h
  by_cases hdc : jsTruthyStr inp.discountCode = true
  · rw [if_pos hdc] at h
    cases hfc : findActiveCode db (inp.discountCode.getD "") with
    | none => rw [hfc] at h; exact absurd h (by simp)
    | some dc =>
      rw [hfc] at h
      simp only [] at h
      by_cases hu : (findUsageExcluding db dc.id
          (if jsTruthyNat inp.clientId = true then inp.clientId.getD 0
           else existing.clientId) apptId).isSome = true
      · rw [if_pos hu] at h; exact absurd h (by simp)
      rw [if_neg hu] at h
      by_cases hna : dc.applicablePackages ≠ [] ∧
          ¬ dc.applicablePackages.contains
              (if jsTruthyNat inp.packageId = true then inp.packageId.getD 0
               else existing.packageId) = true ∧
          (match inp.additionalPackages with
           | some l => l
           | none => existing.additionalPackages.getD []).filter
            (fun i => dc.applicablePackages.contains i) = []
      · rw [if_pos hna] at h; exact absurd h (by simp)
      rw [if_neg hna] at h
      simp only [Except.ok.injEq, Prod.mk.injEq] at h
      obtain ⟨h1, h2, -, -⟩ := h
      rw [← h1, ← h2]
  rw [if_neg hdc] at h
  by_cases hm : (inp.multipleDiscountCodes.getD []) ≠ []
  · rw [if_pos hm] at h
    dsimp only [] at h
    cases happ : applyMultipleDiscounts
        ({ db with
            appointmentDiscounts :=
              db.appointmentDiscounts.filter (fun d => d.appointmentId ≠ apptId)
            usages := db.usages.filter (fun u => u.appointmentId ≠ apptId) })
        (if jsTruthyNat inp.clientId = true then inp.clientId.getD 0
         else existing.clientId)
        (if jsTruthyNat inp.packageId = true then inp.packageId.getD 0
         else existing.packageId)
        (match inp.additionalPackages with
         | some l => l
         | none => existing.additionalPackages.getD [])
        (inp.multipleDiscountCodes.getD []) with
    | error e => rw [happ] at h; exact absurd h (by simp)
    | ok pr =>
      rw [happ] at h
      simp only [Except.ok.injEq, Prod.mk.injEq] at h
      obtain ⟨h1, h2, -, -⟩ := h
      rw [← h1, ← h2]
  rw [if_neg hm] at h
  cases hold : existing.discountCodeId with
  | some oldCode =>
    rw [hold] at h
    simp only [Except.ok.injEq, Prod.mk.injEq] at h
    obtain ⟨h1, h2, -, -⟩ := h
    rw [← h1, ← h2]
  | none =>
    rw [hold] at h
    simp only [Except.ok.injEq, Prod.mk.injEq] at h
    obtain ⟨h1, h2, -, -⟩ := h
    rw [← h1, ← h2]
    simp

/-- A successful `editAppointment` stores `finalPrice = originalPrice -
discountAmount` (null discountAmount reading as 0). -/
theorem editAppointment_ok_final {db : DB} {apptId : Nat} {inp : EditInput}
    {ru : Option Nat} {appt : Appointment} {db' : DB}
    (h : editAppointment db apptId inp ru = (.ok appt, db')) :
    appt.finalPrice = some (jsNum appt.originalPrice - jsNum appt.discountAmount) := by
  unfold editAppointment at h
  by_cases hauth : editAuthOk db ru = true
  case neg =>
    rw [if_pos (by simpa using hauth)] at h
    exact absurd (congrArg Prod.fst h) (by simp)
  rw [if_neg (not_not_intro hauth)] at h
  cases hex : db.appointments.find? (fun a => a.id == apptId) with
  | none =>
    rw [hex] at h
    exact absurd (congrArg Prod.fst h) (by simp)
  | some existing =>
    rw [hex] at h
    dsimp only [] at h
    by_cases hcl : jsTruthyNat inp.clientId = true ∧
        inp.clientId ≠ some existing.clientId ∧
        ¬ db.clients.contains (inp.clientId.getD 0) = true
    · rw [if_pos hcl] at h
      exact absurd (congrArg Prod.fst h) (by simp)
    rw [if_neg hcl] at h
    cases hbp : editBasePackage db inp existing with
    | error e =>
      rw [hbp] at h
      exact absurd (congrArg Prod.fst h) (by simp)
    | ok packageData =>
      rw [hbp] at h
      dsimp only [] at h
      by_cases hbarb : inp.barberId.truthyNat = true ∧
          inp.barberId ≠ (match existing.barberId with
                          | some b => JsOpt.val b
                          | none => JsOpt.null) ∧
          findUserBarber db inp.barberId.toVal = none
      · rw [if_pos hbarb] at h
        exact absurd (congrArg Prod.fst h) (by simp)
      rw [if_neg hbarb] at h
      by_cases hadds : ((match inp.additionalPackages with
            | some l => some l
            | none => existing.additionalPackages).getD []) ≠ [] ∧
          (findManyPackages db ((match inp.additionalPackages with
            | some l => some l
            | none => existing.additionalPackages).getD [])).length ≠
            ((match inp.additionalPackages with
              | some l => some l
              | none => existing.additionalPackages).getD []).length
      · rw [if_pos hadds] at h
        exact absurd (congrArg Prod.fst h) (by simp)
      rw [if_neg hadds] at h
      cases hph : editDiscountPhase db apptId inp existing
          (packageData.price +
            ((findManyPackages db ((match inp.additionalPackages with
              | some l => some l
              | none => existing.additionalPackages).getD [])).map (·.price)).sum) with
      | error e =>
        rw [hph] at h
        exact absurd (congrArg Prod.fst h) (by simp)
      | ok out =>
        obtain ⟨damt, fp, cid, dbX⟩ := out
        rw [hph] at h
        dsimp only [] at h
        have happt : appt = _ := (Except.ok.inj (congrArg Prod.fst h)).symm
        subst happt
        have hfp := editDiscountPhase_ok_final hph
        simp only [jsNum]
        rw [hfp]
        by_cases hz : damt = 0
        · rw [if_pos hz, hz]
          simp
        · rw [if_neg hz]
          simp

/-- A successful `createAppointment` persists exactly the planned appointment. -/
theorem createAppointment_ok_appt {db : DB} {inp : CreateInput} {okf : Bool}
    {appt : Appointment} {db' : DB}
    (h : createAppointment db inp okf = (.ok appt, db')) :
    ∃ plan, createPlan db inp = .ok plan ∧ appt = mkCreatedAppointment db inp plan := by
  unfold createAppointment at h
  cases hpl : createPlan db inp with
  | error e => rw [hpl] at h; exact absurd (congrArg Prod.fst h) (by simp)
  | ok plan =>
    rw [hpl] at h
    dsimp only [] at h
    refine ⟨plan, rfl, ?_⟩
    cases hcid : plan.discountCodeId with
    | none =>
      rw [hcid] at h
      dsimp only [] at h
      exact (Except.ok.inj (congrArg Prod.fst h)).symm
    | some c =>
      rw [hcid] at h
      dsimp only [] at h
      cases okf with
      | true =>
        rw [if_pos rfl] at h
        exact (Except.ok.inj (congrArg Prod.fst h)).symm
      | false =>
        rw [if_neg (by simp)] at h
        exact absurd (congrArg Prod.fst h) (by simp)

theorem createAppointment_ok_final {db : DB} {inp : CreateInput} {okf : Bool}
    {appt : Appointment} {db' : DB}
    (h : createAppointment db inp okf = (.ok appt, db')) :
    appt.finalPrice = some (jsNum appt.originalPrice - jsNum appt.discountAmount) := by
  obtain ⟨plan, hpl, rfl⟩ := createAppointment_ok_appt h
  obtain ⟨-, -, pd, -, -, -, -, hfinal, -⟩ := createPlan_ok_inv hpl
  by_cases hz : plan.discountAmount = 0
  · simp [mkCreatedAppointment, jsNum, hfinal, hz]
  · simp [mkCreatedAppointment, jsNum, hfinal, hz]

/-! ### Claim theorems -/

/-- C1 (amended): every appointment persisted by createAppointment or
editAppointment stores `finalPrice = originalPrice − discountAmount` exactly
(a stored null `discountAmount` reading as 0); the difference is not floored
at 0, so `finalPrice` can be negative. -/
theorem C1_final_price_equation :
    (∀ (db : DB) (inp : CreateInput) (okf : Bool) (appt : Appointment) (db' : DB),
      createAppointment db inp okf = (.ok appt, db') →
      appt.finalPrice = some (jsNum appt.originalPrice - jsNum appt.discountAmount)) ∧
    (∀ (db : DB) (apptId : Nat) (inp : EditInput) (ru : Option Nat)
      (appt : Appointment) (db' : DB),
      editAppointment db apptId inp ru = (.ok appt, db') →
      appt.finalPrice = some (jsNum appt.originalPrice - jsNum appt.discountAmount)) :=
  ⟨fun _ _ _ _ _ h => createAppointment_ok_final h,
   fun _ _ _ _ _ _ h => editAppointment_ok_final h⟩

/-- C1 witness: the scenario creation (80 − 8 = 72) instantiates the equation. -/
theorem C1_final_price_equation_witness :
    createAppointment C1wdb C1winp true = (.ok C1wappt, C1wdbAfter) ∧
    C1wappt.finalPrice = some (jsNum C1wappt.originalPrice - jsNum C1wappt.discountAmount) :=
  ⟨by simp [createAppointment, createPlan, computeCreateDiscount, mkCreatedAppointment, freshApptId, editAppointment, editAuthOk, editBasePackage, editDiscountPhase, applyMultipleDiscounts, deleteUsage, findPackage, findManyPackages, findActiveCode, findUsage, findUsageExcluding, findUser, findUserBarber, priceOf, round2, jsNum, jsOrQ, jsTruthyQ, jsTruthyStr, jsTruthyNat, JsOpt.truthyNat, JsOpt.toVal, C1db, C1inp, C1appt, C1wdb, C1winp, C1wappt, C1wdbAfter, C5db, C6db, C6inp, C9db, C9inp, C9appt, List.find?, List.filter] <;> norm_num,
   C1_final_price_equation.1 C1wdb C1winp true C1wappt C1wdbAfter (by simp [createAppointment, createPlan, computeCreateDiscount, mkCreatedAppointment, freshApptId, editAppointment, editAuthOk, editBasePackage, editDiscountPhase, applyMultipleDiscounts, deleteUsage, findPackage, findManyPackages, findActiveCode, findUsage, findUsageExcluding, findUser, findUserBarber, priceOf, round2, jsNum, jsOrQ, jsTruthyQ, jsTruthyStr, jsTruthyNat, JsOpt.truthyNat, JsOpt.toVal, C1db, C1inp, C1appt, C1wdb, C1winp, C1wappt, C1wdbAfter, C5db, C6db, C6inp, C9db, C9inp, C9appt, List.find?, List.filter] <;> norm_num)⟩

/-- C1 counterexample: editing with two 60% discount codes on a RM50 package
stores `finalPrice = −10`, which differs from `max 0 (50 − 60) = 0`; the
claimed flooring at 0 does not exist. -/
theorem C1_counterexample :
    (editAppointment C1db 5 C1inp none).1 = .ok C1appt ∧
    C1appt.originalPrice = some 50 ∧
    C1appt.discountAmount = some 60 ∧
    C1appt.finalPrice = some (-10) ∧
    ¬ ((-10 : ℚ) = max 0 ((50 : ℚ) - 60)) := by
  refine ⟨by simp [createAppointment, createPlan, computeCreateDiscount, mkCreatedAppointment, freshApptId, editAppointment, editAuthOk, editBasePackage, editDiscountPhase, applyMultipleDiscounts, deleteUsage, findPackage, findManyPackages, findActiveCode, findUsage, findUsageExcluding, findUser, findUserBarber, priceOf, round2, jsNum, jsOrQ, jsTruthyQ, jsTruthyStr, jsTruthyNat, JsOpt.truthyNat, JsOpt.toVal, C1db, C1inp, C1appt, C1wdb, C1winp, C1wappt, C1wdbAfter, C5db, C6db, C6inp, C9db, C9inp, C9appt, List.find?, List.filter] <;> norm_num, by simp [createAppointment, createPlan, computeCreateDiscount, mkCreatedAppointment, freshApptId, editAppointment, editAuthOk, editBasePackage, editDiscountPhase, applyMultipleDiscounts, deleteUsage, findPackage, findManyPackages, findActiveCode, findUsage, findUsageExcluding, findUser, findUserBarber, priceOf, round2, jsNum, jsOrQ, jsTruthyQ, jsTruthyStr, jsTruthyNat, JsOpt.truthyNat, JsOpt.toVal, C1db, C1inp, C1appt, C1wdb, C1winp, C1wappt, C1wdbAfter, C5db, C6db, C6inp, C9db, C9inp, C9appt, List.find?, List.filter] <;> norm_num, by simp [createAppointment, createPlan, computeCreateDiscount, mkCreatedAppointment, freshApptId, editAppointment, editAuthOk, editBasePackage, editDiscountPhase, applyMultipleDiscounts, deleteUsage, findPackage, findManyPackages, findActiveCode, findUsage, findUsageExcluding, findUser, findUserBarber, priceOf, round2, jsNum, jsOrQ, jsTruthyQ, jsTruthyStr, jsTruthyNat, JsOpt.truthyNat, JsOpt.toVal, C1db, C1inp, C1appt, C1wdb, C1winp, C1wappt, C1wdbAfter, C5db, C6db, C6inp, C9db, C9inp, C9appt, List.find?, List.filter] <;> norm_num, by simp [createAppointment, createPlan, computeCreateDiscount, mkCreatedAppointment, freshApptId, editAppointment, editAuthOk, editBasePackage, editDiscountPhase, applyMultipleDiscounts, deleteUsage, findPackage, findManyPackages, findActiveCode, findUsage, findUsageExcluding, findUser, findUserBarber, priceOf, round2, jsNum, jsOrQ, jsTruthyQ, jsTruthyStr, jsTruthyNat, JsOpt.truthyNat, JsOpt.toVal, C1db, C1inp, C1appt, C1wdb, C1winp, C1wappt, C1wdbAfter, C5db, C6db, C6inp, C9db, C9inp, C9appt, List.find?, List.filter] <;> norm_num, by norm_num⟩

/-- C5 (amended): the multi-discount path enforces the same
single-use-per-client restriction as the legacy path — when a usage record
exists for (discountCodeId, clientId), `applyMultipleDiscounts` fails. -/
theorem C5_multi_path_rejects_reuse (db : DB) (clientId packageId : Nat)
    (adds : List Nat) (r : DiscountRequest) (rest : List DiscountRequest)
    (dc : DiscountCode) (u : DiscountCodeUsage)
    (hfind : findActiveCode db r.code = some dc)
    (husage : findUsage db dc.id clientId = some u) :
    applyMultipleDiscounts db clientId packageId adds (r :: rest) =
      .error (.alreadyUsed r.code) := by
  unfold applyMultipleDiscounts
  rw [hfind]
  dsimp only []
  rw [if_pos (by simp [husage])]

/-- C5 witness: the concrete store instantiates the enforced rejection. -/
theorem C5_multi_path_rejects_reuse_witness :
    findActiveCode C5db "SAVE10" =
      some ⟨7, "SAVE10", .percentage, some 10, none, [], true⟩ ∧
    findUsage C5db 7 1 = some ⟨7, 1, 99⟩ ∧
    applyMultipleDiscounts C5db 1 1 [2] [⟨"SAVE10", [1]⟩] =
      .error (.alreadyUsed "SAVE10") :=
  ⟨by simp [createAppointment, createPlan, computeCreateDiscount, mkCreatedAppointment, freshApptId, editAppointment, editAuthOk, editBasePackage, editDiscountPhase, applyMultipleDiscounts, deleteUsage, findPackage, findManyPackages, findActiveCode, findUsage, findUsageExcluding, findUser, findUserBarber, priceOf, round2, jsNum, jsOrQ, jsTruthyQ, jsTruthyStr, jsTruthyNat, JsOpt.truthyNat, JsOpt.toVal, C1db, C1inp, C1appt, C1wdb, C1winp, C1wappt, C1wdbAfter, C5db, C6db, C6inp, C9db, C9inp, C9appt, List.find?, List.filter] <;> norm_num, by simp [createAppointment, createPlan, computeCreateDiscount, mkCreatedAppointment, freshApptId, editAppointment, editAuthOk, editBasePackage, editDiscountPhase, applyMultipleDiscounts, deleteUsage, findPackage, findManyPackages, findActiveCode, findUsage, findUsageExcluding, findUser, findUserBarber, priceOf, round2, jsNum, jsOrQ, jsTruthyQ, jsTruthyStr, jsTruthyNat, JsOpt.truthyNat, JsOpt.toVal, C1db, C1inp, C1appt, C1wdb, C1winp, C1wappt, C1wdbAfter, C5db, C6db, C6inp, C9db, C9inp, C9appt, List.find?, List.filter] <;> norm_num,
   C5_multi_path_rejects_reuse C5db 1 1 [2] ⟨"SAVE10", [1]⟩ []
     ⟨7, "SAVE10", .percentage, some 10, none, [], true⟩ ⟨7, 1, 99⟩
     (by simp [createAppointment, createPlan, computeCreateDiscount, mkCreatedAppointment, freshApptId, editAppointment, editAuthOk, editBasePackage, editDiscountPhase, applyMultipleDiscounts, deleteUsage, findPackage, findManyPackages, findActiveCode, findUsage, findUsageExcluding, findUser, findUserBarber, priceOf, round2, jsNum, jsOrQ, jsTruthyQ, jsTruthyStr, jsTruthyNat, JsOpt.truthyNat, JsOpt.toVal, C1db, C1inp, C1appt, C1wdb, C1winp, C1wappt, C1wdbAfter, C5db, C6db, C6inp, C9db, C9inp, C9appt, List.find?, List.filter] <;> norm_num) (by simp [createAppointment, createPlan, computeCreateDiscount, mkCreatedAppointment, freshApptId, editAppointment, editAuthOk, editBasePackage, editDiscountPhase, applyMultipleDiscounts, deleteUsage, findPackage, findManyPackages, findActiveCode, findUsage, findUsageExcluding, findUser, findUserBarber, priceOf, round2, jsNum, jsOrQ, jsTruthyQ, jsTruthyStr, jsTruthyNat, JsOpt.truthyNat, JsOpt.toVal, C1db, C1inp, C1appt, C1wdb, C1winp, C1wappt, C1wdbAfter, C5db, C6db, C6inp, C9db, C9inp, C9appt, List.find?, List.filter] <;> norm_num)⟩

/-- C5 counterexample: with an existing usage record for (code 7, client 1),
the multi-discount application fails instead of succeeding as claimed. -/
theorem C5_counterexample :
    findActiveCode C5db "SAVE10" =
      some ⟨7, "SAVE10", .percentage, some 10, none, [], true⟩ ∧
    findUsage C5db 7 1 = some ⟨7, 1, 99⟩ ∧
    applyMultipleDiscounts C5db 1 1 [2] [⟨"SAVE10", [1]⟩] ≠
      .ok ([⟨7, [1], 5, "SAVE10"⟩], 5) ∧
    (∀ res, applyMultipleDiscounts C5db 1 1 [2] [⟨"SAVE10", [1]⟩] ≠ .ok res) := by
  refine ⟨by simp [createAppointment, createPlan, computeCreateDiscount, mkCreatedAppointment, freshApptId, editAppointment, editAuthOk, editBasePackage, editDiscountPhase, applyMultipleDiscounts, deleteUsage, findPackage, findManyPackages, findActiveCode, findUsage, findUsageExcluding, findUser, findUserBarber, priceOf, round2, jsNum, jsOrQ, jsTruthyQ, jsTruthyStr, jsTruthyNat, JsOpt.truthyNat, JsOpt.toVal, C1db, C1inp, C1appt, C1wdb, C1winp, C1wappt, C1wdbAfter, C5db, C6db, C6inp, C9db, C9inp, C9appt, List.find?, List.filter] <;> norm_num, by simp [createAppointment, createPlan, computeCreateDiscount, mkCreatedAppointment, freshApptId, editAppointment, editAuthOk, editBasePackage, editDiscountPhase, applyMultipleDiscounts, deleteUsage, findPackage, findManyPackages, findActiveCode, findUsage, findUsageExcluding, findUser, findUserBarber, priceOf, round2, jsNum, jsOrQ, jsTruthyQ, jsTruthyStr, jsTruthyNat, JsOpt.truthyNat, JsOpt.toVal, C1db, C1inp, C1appt, C1wdb, C1winp, C1wappt, C1wdbAfter, C5db, C6db, C6inp, C9db, C9inp, C9appt, List.find?, List.filter] <;> norm_num, by simp [createAppointment, createPlan, computeCreateDiscount, mkCreatedAppointment, freshApptId, editAppointment, editAuthOk, editBasePackage, editDiscountPhase, applyMultipleDiscounts, deleteUsage, findPackage, findManyPackages, findActiveCode, findUsage, findUsageExcluding, findUser, findUserBarber, priceOf, round2, jsNum, jsOrQ, jsTruthyQ, jsTruthyStr, jsTruthyNat, JsOpt.truthyNat, JsOpt.toVal, C1db, C1inp, C1appt, C1wdb, C1winp, C1wappt, C1wdbAfter, C5db, C6db, C6inp, C9db, C9inp, C9appt, List.find?, List.filter] <;> norm_num, ?_⟩
  intro res h
  rw [show applyMultipleDiscounts C5db 1 1 [2] [⟨"SAVE10", [1]⟩] =
      .error (.alreadyUsed "SAVE10") from by decide] at h
  exact absurd h (by simp)

/-- C6: on the legacy single-code create path, a pre-existing usage record for
(discountCodeId, clientId) makes creation fail with the already-used error and
leaves the store unchanged (no appointment, no usage record). -/
theorem C6_single_code_reuse_rejected (db : DB) (inp : CreateInput)
    (dc : DiscountCode) (u : DiscountCodeUsage) (okf : Bool)
    (hc : ¬ (inp.clientId = 0 ∨ inp.packageId = 0))
    (hclient : db.clients.contains inp.clientId = true)
    (hpkg : (findPackage db inp.packageId).isSome = true)
    (hbarber : ¬ (jsTruthyNat inp.barberId = true ∧
        findUserBarber db (inp.barberId.getD 0) = none))
    (hadds : ¬ (inp.additionalPackages.getD [] ≠ [] ∧
        (findManyPackages db (inp.additionalPackages.getD [])).length ≠
          (inp.additionalPackages.getD []).length))
    (hcode : jsTruthyStr inp.discountCode = true)
    (hfind : findActiveCode db (inp.discountCode.getD "") = some dc)
    (husage : findUsage db dc.id inp.clientId = some u) :
    createAppointment db inp okf = (.error .discountAlreadyUsed, db) := by
  have hplan : createPlan db inp = .error .discountAlreadyUsed := by
    unfold createPlan
    rw [if_neg hc, if_neg (not_not_intro hclient)]
    obtain ⟨pd, hpd⟩ := Option.isSome_iff_exists.mp hpkg
    rw [hpd]
    dsimp only []
    rw [if_neg hbarber, if_neg hadds, if_pos hcode, hfind]
    dsimp only []
    rw [if_pos (by simp [husage])]
  unfold createAppointment
  rw [hplan]

/-- C6 witness: the second use of SAVE10 by client 1 is rejected. -/
theorem C6_single_code_reuse_rejected_witness :
    findUsage C6db 7 1 = some ⟨7, 1, 99⟩ ∧
    createAppointment C6db C6inp true = (.error .discountAlreadyUsed, C6db) :=
  ⟨by simp [createAppointment, createPlan, computeCreateDiscount, mkCreatedAppointment, freshApptId, editAppointment, editAuthOk, editBasePackage, editDiscountPhase, applyMultipleDiscounts, deleteUsage, findPackage, findManyPackages, findActiveCode, findUsage, findUsageExcluding, findUser, findUserBarber, priceOf, round2, jsNum, jsOrQ, jsTruthyQ, jsTruthyStr, jsTruthyNat, JsOpt.truthyNat, JsOpt.toVal, C1db, C1inp, C1appt, C1wdb, C1winp, C1wappt, C1wdbAfter, C5db, C6db, C6inp, C9db, C9inp, C9appt, List.find?, List.filter] <;> norm_num,
   C6_single_code_reuse_rejected C6db C6inp
     ⟨7, "SAVE10", .percentage, some 10, none, [], true⟩ ⟨7, 1, 99⟩ true
     (by simp [createAppointment, createPlan, computeCreateDiscount, mkCreatedAppointment, freshApptId, editAppointment, editAuthOk, editBasePackage, editDiscountPhase, applyMultipleDiscounts, deleteUsage, findPackage, findManyPackages, findActiveCode, findUsage, findUsageExcluding, findUser, findUserBarber, priceOf, round2, jsNum, jsOrQ, jsTruthyQ, jsTruthyStr, jsTruthyNat, JsOpt.truthyNat, JsOpt.toVal, C1db, C1inp, C1appt, C1wdb, C1winp, C1wappt, C1wdbAfter, C5db, C6db, C6inp, C9db, C9inp, C9appt, List.find?, List.filter] <;> norm_num) (by simp [createAppointment, createPlan, computeCreateDiscount, mkCreatedAppointment, freshApptId, editAppointment, editAuthOk, editBasePackage, editDiscountPhase, applyMultipleDiscounts, deleteUsage, findPackage, findManyPackages, findActiveCode, findUsage, findUsageExcluding, findUser, findUserBarber, priceOf, round2, jsNum, jsOrQ, jsTruthyQ, jsTruthyStr, jsTruthyNat, JsOpt.truthyNat, JsOpt.toVal, C1db, C1inp, C1appt, C1wdb, C1winp, C1wappt, C1wdbAfter, C5db, C6db, C6inp, C9db, C9inp, C9appt, List.find?, List.filter] <;> norm_num) (by simp [createAppointment, createPlan, computeCreateDiscount, mkCreatedAppointment, freshApptId, editAppointment, editAuthOk, editBasePackage, editDiscountPhase, applyMultipleDiscounts, deleteUsage, findPackage, findManyPackages, findActiveCode, findUsage, findUsageExcluding, findUser, findUserBarber, priceOf, round2, jsNum, jsOrQ, jsTruthyQ, jsTruthyStr, jsTruthyNat, JsOpt.truthyNat, JsOpt.toVal, C1db, C1inp, C1appt, C1wdb, C1winp, C1wappt, C1wdbAfter, C5db, C6db, C6inp, C9db, C9inp, C9appt, List.find?, List.filter] <;> norm_num) (by simp [createAppointment, createPlan, computeCreateDiscount, mkCreatedAppointment, freshApptId, editAppointment, editAuthOk, editBasePackage, editDiscountPhase, applyMultipleDiscounts, deleteUsage, findPackage, findManyPackages, findActiveCode, findUsage, findUsageExcluding, findUser, findUserBarber, priceOf, round2, jsNum, jsOrQ, jsTruthyQ, jsTruthyStr, jsTruthyNat, JsOpt.truthyNat, JsOpt.toVal, C1db, C1inp, C1appt, C1wdb, C1winp, C1wappt, C1wdbAfter, C5db, C6db, C6inp, C9db, C9inp, C9appt, List.find?, List.filter] <;> norm_num) (by simp [createAppointment, createPlan, computeCreateDiscount, mkCreatedAppointment, freshApptId, editAppointment, editAuthOk, editBasePackage, editDiscountPhase, applyMultipleDiscounts, deleteUsage, findPackage, findManyPackages, findActiveCode, findUsage, findUsageExcluding, findUser, findUserBarber, priceOf, round2, jsNum, jsOrQ, jsTruthyQ, jsTruthyStr, jsTruthyNat, JsOpt.truthyNat, JsOpt.toVal, C1db, C1inp, C1appt, C1wdb, C1winp, C1wappt, C1wdbAfter, C5db, C6db, C6inp, C9db, C9inp, C9appt, List.find?, List.filter] <;> norm_num) (by simp [createAppointment, createPlan, computeCreateDiscount, mkCreatedAppointment, freshApptId, editAppointment, editAuthOk, editBasePackage, editDiscountPhase, applyMultipleDiscounts, deleteUsage, findPackage, findManyPackages, findActiveCode, findUsage, findUsageExcluding, findUser, findUserBarber, priceOf, round2, jsNum, jsOrQ, jsTruthyQ, jsTruthyStr, jsTruthyNat, JsOpt.truthyNat, JsOpt.toVal, C1db, C1inp, C1appt, C1wdb, C1winp, C1wappt, C1wdbAfter, C5db, C6db, C6inp, C9db, C9inp, C9appt, List.find?, List.filter] <;> norm_num)
     (by simp [createAppointment, createPlan, computeCreateDiscount, mkCreatedAppointment, freshApptId, editAppointment, editAuthOk, editBasePackage, editDiscountPhase, applyMultipleDiscounts, deleteUsage, findPackage, findManyPackages, findActiveCode, findUsage, findUsageExcluding, findUser, findUserBarber, priceOf, round2, jsNum, jsOrQ, jsTruthyQ, jsTruthyStr, jsTruthyNat, JsOpt.truthyNat, JsOpt.toVal, C1db, C1inp, C1appt, C1wdb, C1winp, C1wappt, C1wdbAfter, C5db, C6db, C6inp, C9db, C9inp, C9appt, List.find?, List.filter] <;> norm_num) (by simp [createAppointment, createPlan, computeCreateDiscount, mkCreatedAppointment, freshApptId, editAppointment, editAuthOk, editBasePackage, editDiscountPhase, applyMultipleDiscounts, deleteUsage, findPackage, findManyPackages, findActiveCode, findUsage, findUsageExcluding, findUser, findUserBarber, priceOf, round2, jsNum, jsOrQ, jsTruthyQ, jsTruthyStr, jsTruthyNat, JsOpt.truthyNat, JsOpt.toVal, C1db, C1inp, C1appt, C1wdb, C1winp, C1wappt, C1wdbAfter, C5db, C6db, C6inp, C9db, C9inp, C9appt, List.find?, List.filter] <;> norm_num)⟩

/-- C9 (amended): the usage-record insert happens after the appointment write
and outside any transaction; when it fails, the handler reports an internal
error but the appointment stays persisted and no usage record exists. -/
theorem C9_usage_insert_failure_keeps_appointment (db : DB) (inp : CreateInput)
    (plan : CreatePlan) (cid : Nat)
    (hpl : createPlan db inp = .ok plan)
    (hcid : plan.discountCodeId = some cid) :
    createAppointment db inp false =
      (.error .internalError,
        { db with appointments := db.appointments ++ [mkCreatedAppointment db inp plan] }) := by
  unfold createAppointment
  rw [hpl]
  dsimp only []
  rw [hcid]
  dsimp only []
  rw [if_neg (by simp)]

/-- C9 witness: the concrete discounted creation with a failing usage insert. -/
theorem C9_usage_insert_failure_keeps_appointment_witness :
    createPlan C9db C9inp = .ok ⟨80, 8, 72, some 7⟩ ∧
    createAppointment C9db C9inp false =
      (.error .internalError,
        { C9db with appointments :=
            C9db.appointments ++ [mkCreatedAppointment C9db C9inp ⟨80, 8, 72, some 7⟩] }) :=
  ⟨by simp [createAppointment, createPlan, computeCreateDiscount, mkCreatedAppointment, freshApptId, editAppointment, editAuthOk, editBasePackage, editDiscountPhase, applyMultipleDiscounts, deleteUsage, findPackage, findManyPackages, findActiveCode, findUsage, findUsageExcluding, findUser, findUserBarber, priceOf, round2, jsNum, jsOrQ, jsTruthyQ, jsTruthyStr, jsTruthyNat, JsOpt.truthyNat, JsOpt.toVal, C1db, C1inp, C1appt, C1wdb, C1winp, C1wappt, C1wdbAfter, C5db, C6db, C6inp, C9db, C9inp, C9appt, List.find?, List.filter] <;> norm_num,
   C9_usage_insert_failure_keeps_appointment C9db C9inp ⟨80, 8, 72, some 7⟩ 7
     (by simp [createAppointment, createPlan, computeCreateDiscount, mkCreatedAppointment, freshApptId, editAppointment, editAuthOk, editBasePackage, editDiscountPhase, applyMultipleDiscounts, deleteUsage, findPackage, findManyPackages, findActiveCode, findUsage, findUsageExcluding, findUser, findUserBarber, priceOf, round2, jsNum, jsOrQ, jsTruthyQ, jsTruthyStr, jsTruthyNat, JsOpt.truthyNat, JsOpt.toVal, C1db, C1inp, C1appt, C1wdb, C1winp, C1wappt, C1wdbAfter, C5db, C6db, C6inp, C9db, C9inp, C9appt, List.find?, List.filter] <;> norm_num) (by simp [createAppointment, createPlan, computeCreateDiscount, mkCreatedAppointment, freshApptId, editAppointment, editAuthOk, editBasePackage, editDiscountPhase, applyMultipleDiscounts, deleteUsage, findPackage, findManyPackages, findActiveCode, findUsage, findUsageExcluding, findUser, findUserBarber, priceOf, round2, jsNum, jsOrQ, jsTruthyQ, jsTruthyStr, jsTruthyNat, JsOpt.truthyNat, JsOpt.toVal, C1db, C1inp, C1appt, C1wdb, C1winp, C1wappt, C1wdbAfter, C5db, C6db, C6inp, C9db, C9inp, C9appt, List.find?, List.filter] <;> norm_num)⟩

/-- C9 counterexample: after the failed usage insert the appointment is
persisted while the usage ledger is untouched — the write pair is not
atomic. -/
theorem C9_counterexample :
    (createAppointment C9db C9inp false).1 = .error .internalError ∧
    (createAppointment C9db C9inp false).2.appointments =
      C9db.appointments ++ [C9appt] ∧
    (createAppointment C9db C9inp false).2.usages = C9db.usages := by
  refine ⟨by simp [createAppointment, createPlan, computeCreateDiscount, mkCreatedAppointment, freshApptId, editAppointment, editAuthOk, editBasePackage, editDiscountPhase, applyMultipleDiscounts, deleteUsage, findPackage, findManyPackages, findActiveCode, findUsage, findUsageExcluding, findUser, findUserBarber, priceOf, round2, jsNum, jsOrQ, jsTruthyQ, jsTruthyStr, jsTruthyNat, JsOpt.truthyNat, JsOpt.toVal, C1db, C1inp, C1appt, C1wdb, C1winp, C1wappt, C1wdbAfter, C5db, C6db, C6inp, C9db, C9inp, C9appt, List.find?, List.filter] <;> norm_num, by simp [createAppointment, createPlan, computeCreateDiscount, mkCreatedAppointment, freshApptId, editAppointment, editAuthOk, editBasePackage, editDiscountPhase, applyMultipleDiscounts, deleteUsage, findPackage, findManyPackages, findActiveCode, findUsage, findUsageExcluding, findUser, findUserBarber, priceOf, round2, jsNum, jsOrQ, jsTruthyQ, jsTruthyStr, jsTruthyNat, JsOpt.truthyNat, JsOpt.toVal, C1db, C1inp, C1appt, C1wdb, C1winp, C1wappt, C1wdbAfter, C5db, C6db, C6inp, C9db, C9inp, C9appt, List.find?, List.filter] <;> norm_num, by simp [createAppointment, createPlan, computeCreateDiscount, mkCreatedAppointment, freshApptId, editAppointment, editAuthOk, editBasePackage, editDiscountPhase, applyMultipleDiscounts, deleteUsage, findPackage, findManyPackages, findActiveCode, findUsage, findUsageExcluding, findUser, findUserBarber, priceOf, round2, jsNum, jsOrQ, jsTruthyQ, jsTruthyStr, jsTruthyNat, JsOpt.truthyNat, JsOpt.toVal, C1db, C1inp, C1appt, C1wdb, C1winp, C1wappt, C1wdbAfter, C5db, C6db, C6inp, C9db, C9inp, C9appt, List.find?, List.filter] <;> norm_num⟩

/-- C7 (amended): `updateAppointmentStatus` validates only that the requested
status is one of the four status strings and never consults the current
status: any stored appointment, including a completed or cancelled one, is
moved to any requested valid status.  Completed and cancelled are not
terminal. -/
theorem C7_status_transitions_unrestricted (db : DB) (apptId : Nat) (s : String)
    (st : Status) (appt : Appointment)
    (hfind : db.appointments.find? (fun a => a.id == apptId) = some appt)
    (hs : statusOfString s = some st) :
    (updateAppointmentStatus db apptId
        ⟨some s, none, none, none, .undef, .undef, .undef, none⟩ none).1 =
      .ok { appt with status := st } := by
  have hvalid : s ∈ validStatuses := by
    by_cases h1 : s = "pending"
    · simp [validStatuses, h1]
    by_cases h2 : s = "confirmed"
    · simp [validStatuses, h2]
    by_cases h3 : s = "completed"
    · simp [validStatuses, h3]
    by_cases h4 : s = "cancelled"
    · simp [validStatuses, h4]
    exfalso
    unfold statusOfString at hs
    rw [if_neg h1, if_neg h2, if_neg h3, if_neg h4] at hs
    exact absurd hs (by simp)
  unfold updateAppointmentStatus
  dsimp only []
  rw [if_neg (not_not_intro hvalid)]
  unfold updateAppointmentStatusChecked
  rw [hfind]
  dsimp only []
  rw [if_neg (by simp)]
  rw [show resolveBarberUpdate db appt
      ⟨some s, none, none, none, .undef, .undef, .undef, none⟩ none =
      .ok appt.barberId from rfl]
  dsimp only []
  rw [if_neg (by simp), if_neg (by simp [JsOpt.truthyNat])]
  simp [hs]

/-- C7 witness: the completed appointment 5 is moved back to pending. -/
theorem C7_status_transitions_unrestricted_witness :
    C7db.appointments.find? (fun a => a.id == 5) = some C7completedAppt ∧
    statusOfString "pending" = some .pending ∧
    (updateAppointmentStatus C7db 5 C7inp none).1 =
      .ok { C7completedAppt with status := Status.pending } :=
  ⟨by decide, by decide,
   C7_status_transitions_unrestricted C7db 5 "pending" .pending C7completedAppt
     (by decide) (by decide)⟩

/-- C7 counterexample: appointment 5 is stored as completed, yet the update to
pending succeeds and changes its status — completed is not terminal. -/
theorem C7_counterexample :
    (C7db.appointments.find? (fun a => a.id == 5)).map (·.status) =
      some .completed ∧
    (updateAppointmentStatus C7db 5 C7inp none).1 =
      .ok { C7completedAppt with status := Status.pending } ∧
    ({ C7completedAppt with status := Status.pending }).status ≠ .completed := by
  refine ⟨by decide, ?_, by decide⟩
  exact C7_status_transitions_unrestricted C7db 5 "pending" .pending
    C7completedAppt (by decide) (by decide)

/-- C8: when an authenticated user completes an appointment, the stored
barberId becomes the acting user's id exactly when the user's role is Boss or
Staff and no barber was assigned; otherwise the auto-assignment leaves the
barber unchanged. -/
theorem C8_auto_assign_on_completion (db : DB) (apptId uid : Nat) (u : User)
    (appt : Appointment)
    (hfind : db.appointments.find? (fun a => a.id == apptId) = some appt)
    (huser : findUser db uid = some u) :
    (updateAppointmentStatus db apptId
        ⟨some "completed", none, none, none, .undef, .undef, .undef, none⟩
        (some uid)).1 =
      .ok { appt with
              status := Status.completed,
              barberId := (if (u.role = .Boss ∨ u.role = .Staff) ∧
                  ¬ jsTruthyNat appt.barberId = true
                then some u.id else appt.barberId) } := by
  have hrb : resolveBarberUpdate db appt
      ⟨some "completed", none, none, none, .undef, .undef, .undef, none⟩ (some uid) =
      .ok (if (u.role = .Boss ∨ u.role = .Staff) ∧ ¬ jsTruthyNat appt.barberId = true
           then some u.id else appt.barberId) := by
    unfold resolveBarberUpdate
    dsimp only []
    rw [if_pos rfl, huser]
    dsimp only []
    by_cases hc : (u.role = .Boss ∨ u.role = .Staff) ∧ ¬ jsTruthyNat appt.barberId = true
    · rw [if_pos hc, if_pos hc]
    · rw [if_neg hc, if_neg hc]
  unfold updateAppointmentStatus
  dsimp only []
  rw [if_neg (by simp [validStatuses])]
  unfold updateAppointmentStatusChecked
  rw [hfind]
  dsimp only []
  rw [if_neg (by simp)]
  rw [hrb]
  dsimp only []
  rw [if_neg (by simp), if_neg (by simp [JsOpt.truthyNat])]
  simp [statusOfString]

/-- C8 witness: Staff user 9 completing unassigned appointment 5 becomes its
barber; with barber 3 already assigned, the assignment is untouched. -/
theorem C8_auto_assign_on_completion_witness :
    C8db.appointments.find? (fun a => a.id == 5) = some C8appt0 ∧
    findUser C8db 9 = some ⟨9, .Staff, true, some 40⟩ ∧
    (updateAppointmentStatus C8db 5 C8inp (some 9)).1 =
      .ok { C8appt0 with status := Status.completed, barberId := some 9 } ∧
    (updateAppointmentStatus C8db2 5 C8inp (some 9)).1 =
      .ok { C8appt3 with status := Status.completed, barberId := some 3 } := by
  refine ⟨by decide, by decide, ?_, ?_⟩
  · have h := C8_auto_assign_on_completion C8db 5 9 ⟨9, .Staff, true, some 40⟩
      C8appt0 (by decide) (by decide)
    simpa [C8appt0, jsTruthyNat] using h
  · have h := C8_auto_assign_on_completion C8db2 5 9 ⟨9, .Staff, true, some 40⟩
      C8appt3 (by decide) (by decide)
    simpa [C8appt3, jsTruthyNat] using h

theorem computeCreateDiscount_ok_of_percent_none {db : DB} {dc : DiscountCode}
    {packageId : Nat} {basePrice : ℚ} {adds : List Nat} {orig d : ℚ}
    (hperc : dc.discountPercent = none)
    (h : computeCreateDiscount db dc packageId basePrice adds orig = .ok d) :
    d = 0 := by
  unfold computeCreateDiscount at h
  by_cases happ : dc.applicablePackages ≠ []
  · rw [if_pos happ] at h
    dsimp only [] at h
    by_cases hna : ¬ dc.applicablePackages.contains packageId = true ∧
        adds.filter (fun i => dc.applicablePackages.contains i) = []
    · rw [if_pos hna] at h
      exact absurd h (by simp)
    · rw [if_neg hna] at h
      simp only [Except.ok.injEq] at h
      rw [← h]
      simp [round2, jsNum, hperc]
  · rw [if_neg happ] at h
    simp only [Except.ok.injEq] at h
    rw [← h]
    simp [round2, jsNum, hperc]

/-- C2 (amended): in the financial overview, a completed appointment with a
barber whose commission rate is non-null and non-zero contributes
`originalPrice × rate / 100` whenever `originalPrice` is present and non-zero;
the fallback basis (`finalPrice`, then 0) is used when `originalPrice` is
null **or zero**, since the source tests `apt.originalPrice || apt.finalPrice
|| 0` with JavaScript truthiness. -/
theorem C2_commission_uses_original_price (db : DB) (apt : Appointment)
    (b : User) (r : ℚ)
    (hbar : apt.barberId.bind (fun i => findUser db i) = some b)
    (hr : b.commissionRate = some r) (hr0 : r ≠ 0) :
    (∀ p : ℚ, apt.originalPrice = some p → p ≠ 0 →
      commissionContribution db apt = p * (r / 100)) ∧
    (apt.originalPrice = none →
      commissionContribution db apt =
        (if jsTruthyQ apt.finalPrice then jsNum apt.finalPrice else 0) * (r / 100)) := by
  constructor
  · intro p hp hp0
    unfold commissionContribution
    rw [hbar]
    dsimp only []
    rw [if_pos (by simp [jsTruthyQ, hr, hr0])]
    simp [jsOrQ, jsTruthyQ, jsNum, hp, hp0, hr]
  · intro hp
    unfold commissionContribution
    rw [hbar]
    dsimp only []
    rw [if_pos (by simp [jsTruthyQ, hr, hr0])]
    simp [jsOrQ, jsTruthyQ, jsNum, hp, hr]

/-- C2 witness: an appointment with originalPrice 80, finalPrice 72 and a 40%
barber contributes 80 × 40/100, not 72 × 40/100. -/
theorem C2_commission_uses_original_price_witness :
    C2wappt.barberId.bind (fun i => findUser C2wdb i) =
      some ⟨7, .Staff, true, some 40⟩ ∧
    C2wappt.originalPrice = some 80 ∧
    commissionContribution C2wdb C2wappt = 80 * ((40 : ℚ) / 100) :=
  ⟨by simp [C2wappt, C2wdb, C2db, findUser, List.find?], rfl,
   (C2_commission_uses_original_price C2wdb C2wappt ⟨7, .Staff, true, some 40⟩ 40
      (by simp [C2wappt, C2wdb, C2db, findUser, List.find?]) rfl
      (by norm_num)).1 80 rfl (by norm_num)⟩

/-- C2 counterexample: a completed appointment with `originalPrice = 0` (present,
not absent) and `finalPrice = 100` contributes `100 × 40/100 = 40`, not
`originalPrice × 40/100 = 0`: the fallback also fires on a zero original
price, and the commission is then based on finalPrice. -/
theorem C2_counterexample :
    C2appt.originalPrice = some 0 ∧
    C2appt.finalPrice = some 100 ∧
    totalCommissionPaid C2db = 40 ∧
    commissionContribution C2db C2appt = 40 ∧
    jsNum C2appt.originalPrice * ((40 : ℚ) / 100) = 0 ∧
    (40 : ℚ) ≠ 0 := by
  refine ⟨rfl, rfl, ?_, ?_, by simp [C2appt, jsNum], by norm_num⟩
  · simp [totalCommissionPaid, completedAppointments, commissionContribution,
      C2db, C2appt, findUser, jsOrQ, jsTruthyQ, jsNum, List.find?, List.filter]
    norm_num
  · simp [commissionContribution, C2db, C2appt, findUser, jsOrQ, jsTruthyQ,
      jsNum, List.find?]
    norm_num

/-- C4 (amended): a fixed_amount discount code is effectively ignored by the
appointment-creation pricing: such codes are stored with a null
discountPercent, the creation path multiplies by that null (coerced to 0), and
the computed discountAmount is 0 — there is no min(discountAmount,
discountableAmount) clamp in the code. -/
theorem C4_fixed_amount_yields_zero (db : DB) (inp : CreateInput)
    (dc : DiscountCode) (plan : CreatePlan)
    (hcode : jsTruthyStr inp.discountCode = true)
    (hfind : findActiveCode db (inp.discountCode.getD "") = some dc)
    (hty : dc.discountType = .fixed_amount)
    (hperc : dc.discountPercent = none)
    (hok : createPlan db inp = .ok plan) :
    plan.discountAmount = 0 ∧ plan.finalPrice = plan.originalPrice := by
  obtain ⟨-, -, pd, hpd, -, -, -, hfinal, hdisc⟩ := createPlan_ok_inv hok
  rcases hdisc with ⟨-, dc', hfind', -, -, hcomp⟩ | ⟨hns, -, -⟩
  · rw [hfind] at hfind'
    injection hfind' with hdc
    subst hdc
    have hz := computeCreateDiscount_ok_of_percent_none hperc hcomp
    exact ⟨hz, by rw [hfinal, hz, sub_zero]⟩
  · exact absurd hcode (by simp [hns])

/-- C4 counterexample: an active fixed_amount RM10 code on a RM50 package
yields discountAmount 0 and finalPrice 50; the claimed
`min(discountCode.discountAmount, discountableAmount) = min 10 50 = 10` does
not match the computed 0. -/
theorem C4_counterexample :
    findActiveCode C4db "FIXED10" =
      some ⟨1, "FIXED10", .fixed_amount, none, some 10, [], true⟩ ∧
    createPlan C4db C4inp = .ok ⟨50, 0, 50, some 1⟩ ∧
    ¬ ((0 : ℚ) = min 10 50) := by
  refine ⟨by simp [findActiveCode, C4db, List.find?], ?_, by norm_num [min_def]⟩
  simp [createPlan, computeCreateDiscount, C4db, C4inp, findPackage,
    findActiveCode, findUsage, findManyPackages, round2, jsNum, jsTruthyStr,
    jsTruthyNat, List.find?, List.filter]

/-- C4 witness: the fixed-amount creation run instantiates the amended claim. -/
theorem C4_fixed_amount_yields_zero_witness :
    createPlan C4db C4inp = .ok ⟨50, 0, 50, some 1⟩ ∧
    (⟨50, 0, 50, some 1⟩ : CreatePlan).discountAmount = 0 ∧
    (⟨50, 0, 50, some 1⟩ : CreatePlan).finalPrice =
      (⟨50, 0, 50, some 1⟩ : CreatePlan).originalPrice := by
  have hev : createPlan C4db C4inp = .ok ⟨50, 0, 50, some 1⟩ := by
    simp [createPlan, computeCreateDiscount, C4db, C4inp, findPackage,
      findActiveCode, findUsage, findManyPackages, round2, jsNum, jsTruthyStr,
      jsTruthyNat, List.find?, List.filter]
  have h := C4_fixed_amount_yields_zero C4db C4inp
    ⟨1, "FIXED10", .fixed_amount, none, some 10, [], true⟩ ⟨50, 0, 50, some 1⟩
    (by simp [C4inp, jsTruthyStr])
    (by simp [findActiveCode, C4db, C4inp, List.find?]) rfl rfl hev
  exact ⟨hev, h.1, h.2⟩

/-- C10: an additionalPackages list that repeats a package id is rejected with
the packages-not-found error on both the create and the edit path, even though
every referenced package exists, because `findMany { id: { in: ids } }`
returns each stored row once and its count is compared with the request
length. -/
theorem C10_duplicate_additional_packages_rejected :
    (∀ (db : DB) (inp : CreateInput) (adds : List Nat),
      db.WFpackages →
      inp.additionalPackages = some adds →
      ¬ adds.Nodup →
      (∀ i ∈ adds, (findPackage db i).isSome) →
      ¬ (inp.clientId = 0 ∨ inp.packageId = 0) →
      db.clients.contains inp.clientId = true →
      (findPackage db inp.packageId).isSome = true →
      ¬ (jsTruthyNat inp.barberId = true ∧
          findUserBarber db (inp.barberId.getD 0) = none) →
      createPlan db inp = .error .additionalPackagesNotFound) ∧
    (∀ (db : DB) (apptId : Nat) (adds : List Nat) (appt : Appointment),
      db.WFpackages →
      db.appointments.find? (fun a => a.id == apptId) = some appt →
      (findPackage db appt.packageId).isSome = true →
      ¬ adds.Nodup →
      (∀ i ∈ adds, (findPackage db i).isSome) →
      editAppointment db apptId
          ⟨none, none, .undef, some adds, none, none, false, none⟩ none =
        (.error .additionalPackagesNotFound, db)) := by
  constructor
  · intro db inp adds hwf hinp hnd hpres hcp hcl hpkg hbarb
    have hne : adds ≠ [] := by
      intro h
      subst h
      exact hnd List.nodup_nil
    have hlt := findMany_length_lt_of_not_nodup db hwf hnd
    unfold createPlan
    rw [if_neg hcp, if_neg (not_not_intro hcl)]
    obtain ⟨pd, hpd⟩ := Option.isSome_iff_exists.mp hpkg
    rw [hpd]
    dsimp only []
    rw [if_neg hbarb, hinp]
    simp only [Option.getD_some]
    rw [if_pos ⟨hne, Nat.ne_of_lt hlt⟩]
  · intro db apptId adds appt hwf hfind hfp hnd hpres
    have hne : adds ≠ [] := by
      intro h
      subst h
      exact hnd List.nodup_nil
    have hlt := findMany_length_lt_of_not_nodup db hwf hnd
    obtain ⟨pd, hpd⟩ := Option.isSome_iff_exists.mp hfp
    have hbp : editBasePackage db
        ⟨none, none, .undef, some adds, none, none, false, none⟩ appt = .ok pd := by
      unfold editBasePackage
      rw [if_neg (by simp [jsTruthyNat]), hpd]
    unfold editAppointment
    rw [if_neg (by simp [editAuthOk]), hfind]
    dsimp only []
    rw [if_neg (by simp [jsTruthyNat]), hbp]
    dsimp only []
    rw [if_neg (by simp [JsOpt.truthyNat])]
    simp only [Option.getD_some]
    rw [if_pos ⟨hne, Nat.ne_of_lt hlt⟩]

/-- C10 witness: additionalPackages [2, 2] with package 2 existing fails on
both paths. -/
theorem C10_duplicate_additional_packages_rejected_witness :
    (∀ i ∈ [2, 2], (findPackage C10db i).isSome) ∧
    createPlan C10db C10cinp = .error .additionalPackagesNotFound ∧
    editAppointment C10db 5 C10einp none = (.error .additionalPackagesNotFound, C10db) := by
  refine ⟨by decide, ?_, ?_⟩
  · exact C10_duplicate_additional_packages_rejected.1 C10db C10cinp [2, 2]
      (by decide) rfl (by decide) (by decide) (by decide) (by decide) (by decide)
      (by decide)
  · exact C10_duplicate_additional_packages_rejected.2 C10db 5 [2, 2]
      ⟨5, 1, 1, none, none, .pending, some 50, none, none, some 50⟩
      (by decide) (by decide) (by decide) (by decide) (by decide)

theorem computeCreateDiscount_spec (db : DB) (dc : DiscountCode)
    (packageId : Nat) (pd : Package) (adds : List Nat) (orig p d : ℚ)
    (hwf : db.WFpackages)
    (hpd : findPackage db packageId = some pd)
    (hp : dc.discountPercent = some p)
    (hnd : adds.Nodup)
    (hpres : ∀ i ∈ adds, (findPackage db i).isSome)
    (h : computeCreateDiscount db dc packageId pd.price adds orig = .ok d) :
    d = round2 (specDiscountableAmount db dc packageId adds orig * p / 100) := by
  unfold computeCreateDiscount at h
  unfold specDiscountableAmount
  by_cases happ : dc.applicablePackages = []
  · rw [if_neg (not_not_intro happ)] at h
    rw [if_pos happ]
    simp only [Except.ok.injEq] at h
    rw [← h, hp]
    simp [jsNum]
  · rw [if_pos happ] at h
    dsimp only [] at h
    by_cases hna : ¬ dc.applicablePackages.contains packageId = true ∧
        adds.filter (fun i => dc.applicablePackages.contains i) = []
    · rw [if_pos hna] at h
      exact absurd h (by simp)
    rw [if_neg hna] at h
    simp only [Except.ok.injEq] at h
    rw [if_neg happ, ← h, hp]
    have hbridge :
        ((findManyPackages db
            (adds.filter (fun i => dc.applicablePackages.contains i))).map (·.price)).sum =
          ((adds.filter (fun i => dc.applicablePackages.contains i)).map (priceOf db)).sum :=
      findMany_price_sum db hwf _ (hnd.filter _)
        (fun i hi => hpres i (List.mem_of_mem_filter hi))
    have hbase : priceOf db packageId = pd.price := by simp [priceOf, hpd]
    cases hb : dc.applicablePackages.contains packageId with
    | true =>
      rw [List.filter_cons]
      rw [if_pos hb, List.map_cons, List.sum_cons, hbase, hbridge]
      simp [jsNum, hb]
    | false =>
      rw [List.filter_cons]
      rw [if_neg (show ¬ dc.applicablePackages.contains packageId = true by
            simp only [hb]; decide), hbridge]
      simp [jsNum, hb]

/-- C3: for a percentage-type discount code applied at appointment creation,
the computed discountAmount equals
`round2(discountableAmount × discountPercent / 100)` where discountableAmount
is, as the spec states, the sum of the prices of the selected packages (base
plus additionals) contained in the code's applicablePackages set, and the full
originalPrice when applicablePackages is empty. -/
theorem C3_percentage_discount_formula (db : DB) (inp : CreateInput)
    (dc : DiscountCode) (p : ℚ) (plan : CreatePlan)
    (hwf : db.WFpackages)
    (hcode : jsTruthyStr inp.discountCode = true)
    (hfind : findActiveCode db (inp.discountCode.getD "") = some dc)
    (hty : dc.discountType = .percentage)
    (hp : dc.discountPercent = some p)
    (hok : createPlan db inp = .ok plan) :
    plan.discountAmount =
      round2 (specDiscountableAmount db dc inp.packageId
        (inp.additionalPackages.getD []) plan.originalPrice * p / 100) := by
  obtain ⟨-, -, pd, hpd, -, hadds, horig, -, hdisc⟩ := createPlan_ok_inv hok
  rcases hdisc with ⟨-, dc', hfind', -, -, hcomp⟩ | ⟨hns, -, -⟩
  · rw [hfind] at hfind'
    injection hfind' with hdc
    subst hdc
    have hnd_pres : (inp.additionalPackages.getD []).Nodup ∧
        ∀ i ∈ inp.additionalPackages.getD [], (findPackage db i).isSome := by
      rcases Decidable.em (inp.additionalPackages.getD [] = []) with h | h
      · rw [h]
        exact ⟨List.nodup_nil, by simp⟩
      · have hlen : (findManyPackages db (inp.additionalPackages.getD [])).length =
            (inp.additionalPackages.getD []).length := by
          by_contra hc
          exact hadds ⟨h, hc⟩
        exact ⟨nodup_of_findMany_length_eq db hwf hlen,
          present_of_findMany_length_eq db hwf hlen⟩
    exact computeCreateDiscount_spec db dc inp.packageId pd
      (inp.additionalPackages.getD []) plan.originalPrice p plan.discountAmount
      hwf hpd hp hnd_pres.1 hnd_pres.2 hcomp
  · exact absurd hcode (by simp [hns])

/-- C3 witness: the spec's scenario — base RM50, additional RM30, SAVE10 at
10% applicable to all — yields discountAmount 8.00 and finalPrice 72.00, and
instantiates the formula with discountableAmount 80. -/
theorem C3_percentage_discount_formula_witness :
    createPlan C3db C3inp = .ok ⟨80, 8, 72, some 7⟩ ∧
    (8 : ℚ) = round2 (specDiscountableAmount C3db
      ⟨7, "SAVE10", .percentage, some 10, none, [], true⟩ 1 [2] 80 * 10 / 100) ∧
    specDiscountableAmount C3db
      ⟨7, "SAVE10", .percentage, some 10, none, [], true⟩ 1 [2] 80 = 80 ∧
    round2 ((80 : ℚ) * 10 / 100) = 8 := by
  have hev : createPlan C3db C3inp = .ok ⟨80, 8, 72, some 7⟩ := by
    simp [createPlan, computeCreateDiscount, C3db, C3inp, findPackage,
      findActiveCode, findUsage, findManyPackages, round2, jsNum, jsTruthyStr,
      jsTruthyNat, List.find?, List.filter]
    norm_num
  refine ⟨hev, ?_, by simp [specDiscountableAmount], by unfold round2; norm_num⟩
  have h := C3_percentage_discount_formula C3db C3inp
    ⟨7, "SAVE10", .percentage, some 10, none, [], true⟩ 10 ⟨80, 8, 72, some 7⟩
    (by decide) (by simp [C3inp, jsTruthyStr])
    (by simp [findActiveCode, C3db, C3inp, List.find?]) rfl rfl hev
  simpa [C3inp] using h

end LittleBackend
